import Mathlib

/-!
# SPDX tag-value parser, version 2.3 (`tvloader/parser2v3/parser.go`)

A shallow embedding of `ParseTagValues`, `parsePair2_3` and
`parsePairFromStart2_3`, and theorems about them.

Conventions of the embedding:

* a Go pointer that may be `nil` is an `Option` holding the pointee's current
  contents; a Go slice is a `List` (`append` adds at the end);
* a method with a pointer receiver that returns `error` is a function from the
  parser to the parser it leaves behind, paired with `Option Error`
  (`none` is the `nil` error);
* an `error` is identified with its message;
* declarations that `parser.go` uses but does not contain (the section builders
  of the six later states, the two extraction helpers, the unset-identifier
  constant) are collected in `Externals`; a statement holds for all of them
  unless it names `specExternals`, the instance modelled from the
  specification.
-/

namespace parser2v3

/-! ## Data model -/

/-- The message of a Go `error` value. -/
abbrev Error := String

/-- Modelled from the spec: the type `common.ElementID` (its declaration is not
in `parser.go`): "an opaque identifier string scoped to the document; equality
is exact string match". -/
abbrev ElementID := String

/-- Modelled from the spec: the type `reader.TagValuePair` (declared in the
reader package): one pre-tokenized `Tag: Value` line.  `ParseTagValues` reads
the fields `Tag` and `Value`. -/
structure TagValuePair where
  Tag : String
  Value : String
deriving DecidableEq, Repr

/-- Modelled from the spec: the type `common.Checksum`: an algorithm name paired
with a hex digest.  The field names are those of the literal in
`parsePairFromStart2_3`. -/
structure Checksum where
  Algorithm : String
  Value : String
deriving DecidableEq, Repr

/-- Modelled from the spec: the type `v2_3.ExternalDocumentRef`: a local
reference id, a URI and a checksum.  The field names are those of the literal
in `parsePairFromStart2_3`. -/
structure ExternalDocumentRef where
  DocumentRefID : String
  URI : String
  Checksum : Checksum
deriving DecidableEq, Repr

/-- Modelled from the spec: the type `v2_3.CreationInfo`: creators (multi-valued),
creation timestamp, creator comment. -/
structure CreationInfo where
  Creators : List String
  Created : String
  CreatorComment : String
deriving DecidableEq, Repr

/-- Modelled from the spec: the type `v2_3.File`.  `parser.go` reads the name and
the element identifier; the descriptive fields are not represented. -/
structure File where
  FileName : String
  FileSPDXIdentifier : ElementID
deriving DecidableEq, Repr

/-- Modelled from the spec: the type `v2_3.Package`.  Of the fields the spec
lists, `parser.go` reads the name and the element identifier; `Files` is the
nested collection of the files of the package ("nested collections (files
included by reference, ...)"), empty in a new package; the optional descriptive
fields are not represented. -/
structure Package where
  PackageName : String
  PackageSPDXIdentifier : ElementID
  Files : List File := []
deriving DecidableEq, Repr

/-- Modelled from the spec: the type `v2_3.Snippet`: a mandatory element
identifier and a name; range bounds and license fields are not represented. -/
structure Snippet where
  SnippetName : String
  SnippetSPDXIdentifier : ElementID
deriving DecidableEq, Repr

/-- Modelled from the spec: the type `v2_3.OtherLicense`: a license
identifier and the license text. -/
structure OtherLicense where
  LicenseIdentifier : String
  ExtractedText : String
deriving DecidableEq, Repr

/-- Modelled from the spec: the type `v2_3.Review` (legacy section): reviewer,
timestamp, comment. -/
structure Review where
  Reviewer : String
  ReviewDate : String
  ReviewComment : String
deriving DecidableEq, Repr

/-- Modelled from the spec: the type `v2_3.Document`: format version, data
license, document comment, element identifier, name, namespace, the ordered
list of external document references, the creation-info record and the owned
collections.  The first seven field names are those written by
`parsePairFromStart2_3`. -/
structure Document where
  SPDXVersion : String
  DataLicense : String
  SPDXIdentifier : ElementID
  DocumentName : String
  DocumentNamespace : String
  ExternalDocumentReferences : List ExternalDocumentRef
  DocumentComment : String
  CreationInfo : Option CreationInfo
  Packages : List Package
  Files : List File
  Snippets : List Snippet
  OtherLicenses : List OtherLicense
  Reviews : List Review
deriving DecidableEq, Repr

/-- Modelled from the spec: the type `tvParserState2_3`, an integer
enumeration (`parsePair2_3` has a `default` branch for values outside the
named ones). -/
abbrev tvParserState2_3 := Int

/-- Modelled from the spec: the state constants, which `parser.go` names but does
not declare: "State set: Start, CreationInfo, Package, File, Snippet,
OtherLicense, Review. Start is initial", so `psStart2_3` is the zero value of
a fresh parser and the others follow in the order listed. -/
def psStart2_3 : tvParserState2_3 := 0

/-- Modelled from the spec: second state of the state set (see `psStart2_3`). -/
def psCreationInfo2_3 : tvParserState2_3 := 1

/-- Modelled from the spec: third state of the state set (see `psStart2_3`). -/
def psPackage2_3 : tvParserState2_3 := 2

/-- Modelled from the spec: fourth state of the state set (see `psStart2_3`). -/
def psFile2_3 : tvParserState2_3 := 3

/-- Modelled from the spec: fifth state of the state set (see `psStart2_3`). -/
def psSnippet2_3 : tvParserState2_3 := 4

/-- Modelled from the spec: sixth state of the state set (see `psStart2_3`). -/
def psOtherLicense2_3 : tvParserState2_3 := 5

/-- Modelled from the spec: seventh state of the state set (see `psStart2_3`). -/
def psReview2_3 : tvParserState2_3 := 6

/-- Modelled from the spec: the type `tvParser2_3` (its declaration is not in
`parser.go`): "current state, document-in-progress, open-entity slots", at
most one open entity per kind.  `parser.go` uses `doc`, `st`, `pkg` and `file`;
the creation-info record is reached through the document. -/
structure tvParser2_3 where
  doc : Option Document
  st : tvParserState2_3
  pkg : Option Package
  file : Option File
  snippet : Option Snippet
  otherLic : Option OtherLicense
  rev : Option Review
deriving DecidableEq, Repr

/-- The type of a section builder: a method `func (parser *tvParser2_3)
name(tag string, value string) error`. -/
abbrev Builder := tvParser2_3 → String → String → tvParser2_3 × Option Error

/-- The declarations `parser.go` calls or reads but does not contain. -/
structure Externals where
  /-- The constant `nullSpdxElementId2_3`, the unset element identifier. -/
  nullSpdxElementId2_3 : ElementID
  /-- The helper `extractElementID(value) (common.ElementID, error)`. -/
  extractElementID : String → Except Error ElementID
  /-- The helper `extractExternalDocumentReference(value)`, which returns
  `(documentRefID, uri, alg, checksum, err)`. -/
  extractExternalDocumentReference : String → Except Error (String × String × String × String)
  /-- The builder of the CreationInfo state. -/
  parsePairFromCreationInfo2_3 : Builder
  /-- The builder of the Package state. -/
  parsePairFromPackage2_3 : Builder
  /-- The builder of the File state. -/
  parsePairFromFile2_3 : Builder
  /-- The builder of the Snippet state. -/
  parsePairFromSnippet2_3 : Builder
  /-- The builder of the OtherLicense state. -/
  parsePairFromOtherLicense2_3 : Builder
  /-- The builder of the Review state. -/
  parsePairFromReview2_3 : Builder

/-! ## The code of `parser.go` -/

/-- The zero value `tvParser2_3{}` with which `ParseTagValues` starts. -/
def tvParser2_3.zero : tvParser2_3 :=
  { doc := none, st := 0, pkg := none, file := none, snippet := none,
    otherLic := none, rev := none }

/-- The literal `&v2_3.Document{ExternalDocumentReferences:
[]v2_3.ExternalDocumentRef{}}`: every field has its zero value. -/
def Document.fresh : Document :=
  { SPDXVersion := "", DataLicense := "", SPDXIdentifier := "", DocumentName := "",
    DocumentNamespace := "", ExternalDocumentReferences := [], DocumentComment := "",
    CreationInfo := none, Packages := [], Files := [], Snippets := [],
    OtherLicenses := [], Reviews := [] }

/-- The method `parsePairFromStart2_3` (parser.go, lines 54-100). -/
def parsePairFromStart2_3 (env : Externals) (parser : tvParser2_3) (tag value : String) :
    tvParser2_3 × Option Error :=
  -- fail if not in Start parser state
  if parser.st ≠ psStart2_3 then
    (parser, some ("got invalid state " ++ toString parser.st ++ " in parsePairFromStart2_3"))
  else
    -- create an SPDX Document data struct if we don't have one already
    let doc : Document :=
      match parser.doc with
      | none => Document.fresh
      | some d => d
    let parser : tvParser2_3 := { parser with doc := some doc }
    if tag = "DocumentComment" then
      ({ parser with doc := some { doc with DocumentComment := value } }, none)
    else if tag = "SPDXVersion" then
      ({ parser with doc := some { doc with SPDXVersion := value } }, none)
    else if tag = "DataLicense" then
      ({ parser with doc := some { doc with DataLicense := value } }, none)
    else if tag = "SPDXID" then
      match env.extractElementID value with
      | .error err => (parser, some err)
      | .ok eID => ({ parser with doc := some { doc with SPDXIdentifier := eID } }, none)
    else if tag = "DocumentName" then
      ({ parser with doc := some { doc with DocumentName := value } }, none)
    else if tag = "DocumentNamespace" then
      ({ parser with doc := some { doc with DocumentNamespace := value } }, none)
    else if tag = "ExternalDocumentRef" then
      match env.extractExternalDocumentReference value with
      | .error err => (parser, some err)
      | .ok (documentRefID, uri, alg, checksum) =>
        let edr : ExternalDocumentRef :=
          { DocumentRefID := documentRefID, URI := uri,
            Checksum := { Algorithm := alg, Value := checksum } }
        ({ parser with doc := some { doc with
            ExternalDocumentReferences := doc.ExternalDocumentReferences ++ [edr] } }, none)
    else
      -- move to Creation Info parser state
      env.parsePairFromCreationInfo2_3 { parser with st := psCreationInfo2_3 } tag value

/-- The method `parsePair2_3` (parser.go, lines 33-52). -/
def parsePair2_3 (env : Externals) (parser : tvParser2_3) (tag value : String) :
    tvParser2_3 × Option Error :=
  if parser.st = psStart2_3 then parsePairFromStart2_3 env parser tag value
  else if parser.st = psCreationInfo2_3 then env.parsePairFromCreationInfo2_3 parser tag value
  else if parser.st = psPackage2_3 then env.parsePairFromPackage2_3 parser tag value
  else if parser.st = psFile2_3 then env.parsePairFromFile2_3 parser tag value
  else if parser.st = psSnippet2_3 then env.parsePairFromSnippet2_3 parser tag value
  else if parser.st = psOtherLicense2_3 then env.parsePairFromOtherLicense2_3 parser tag value
  else if parser.st = psReview2_3 then env.parsePairFromReview2_3 parser tag value
  else
    (parser, some ("parser state " ++ toString parser.st ++ " not recognized when parsing ("
      ++ tag ++ ", " ++ value ++ ")"))

/-- The `for _, tv := range tvs` loop of `ParseTagValues` (lines 18-23): the
parser left behind, and the error at which the loop returned, if any. -/
def ParseTagValues_loop (env : Externals) :
    tvParser2_3 → List TagValuePair → tvParser2_3 × Option Error
  | parser, [] => (parser, none)
  | parser, tv :: rest =>
    match parsePair2_3 env parser tv.Tag tv.Value with
    | (parser1, some err) => (parser1, some err)
    | (parser1, none) => ParseTagValues_loop env parser1 rest

/-- The statements of `ParseTagValues` after the loop (lines 24-30). -/
def ParseTagValues_finish (env : Externals) (parser : tvParser2_3) :
    Option Document × Option Error :=
  -- lines 27-30, reached when the test of line 24 is false
  let afterFile : Option Document × Option Error :=
    match parser.pkg with
    | some pkg =>
      if pkg.PackageSPDXIdentifier = env.nullSpdxElementId2_3 then
        (none, some ("package with PackageName " ++ pkg.PackageName
          ++ " does not have SPDX identifier"))
      else (parser.doc, none)
    | none => (parser.doc, none)
  match parser.file with
  | some file =>
    if file.FileSPDXIdentifier = env.nullSpdxElementId2_3 then
      (none, some ("file with FileName " ++ file.FileName ++ " does not have SPDX identifier"))
    else afterFile
  | none => afterFile

/-- The function `ParseTagValues` (parser.go, lines 16-31): the returned
`*v2_3.Document` and `error`. -/
def ParseTagValues (env : Externals) (tvs : List TagValuePair) :
    Option Document × Option Error :=
  match ParseTagValues_loop env tvParser2_3.zero tvs with
  | (_, some err) => (none, some err)
  | (parser, none) => ParseTagValues_finish env parser

/-! ## A reference instance of the external declarations

The instance `specExternals` gives the external declarations the behaviour the
specification describes, so that the code can be evaluated on concrete pair
sequences and so that what depends on the builders can be proved for them. -/

/-- Modelled from the spec: the constant `nullSpdxElementId2_3`: "the sentinel
unset value is distinct from any valid identifier"; valid identifiers are
non-empty, and the sentinel is the zero value of the identifier type. -/
def specNull : ElementID := ""

/-- Modelled from the spec: the "restricted character set per format convention"
of an element identifier: letters, digits, `.` and `-`. -/
def specIdChar (c : Char) : Bool := c.isAlphanum || c = '.' || c = '-'

/-- Modelled from the spec: the helper `extractElementID`: "parses an identifier
token, validating its lexical shape (non-empty, restricted character set per
format convention); fails with a descriptive error if malformed".  As in
Scenario A the identifier is the whole token. -/
def specExtractElementID (value : String) : Except Error ElementID :=
  if value.data ≠ [] ∧ value.data.all specIdChar = true then .ok value
  else .error ("malformed element identifier: " ++ value)

/-- Modelled from the spec: the tokens of a compound value, which are separated
by blanks (section 6: `<refID> <URI> <ALG>: <hex>`); `acc` holds the token
being read, in reverse. -/
def specTokens : List Char → List Char → List (List Char)
  | [], acc => if acc = [] then [] else [acc.reverse]
  | c :: cs, acc =>
    if c = ' ' then (if acc = [] then specTokens cs [] else acc.reverse :: specTokens cs [])
    else specTokens cs (c :: acc)

/-- Modelled from the spec: the "recognized enumerated set" of checksum
algorithms ("e.g. SHA1/SHA256/…"); `MD9` of Scenario D is outside it. -/
def specAlgorithms : List String :=
  ["SHA1", "SHA224", "SHA256", "SHA384", "SHA512", "MD2", "MD4", "MD5", "MD6"]

/-- Modelled from the spec: a hexadecimal digit, the alphabet of the "hex digest
string" of a checksum. -/
def specHexChar (c : Char) : Bool :=
  c.isDigit || (decide ('a' ≤ c) && decide (c ≤ 'f')) || (decide ('A' ≤ c) && decide (c ≤ 'F'))

/-- Modelled from the spec: the helper `extractExternalDocumentReference`: the
value has the shape `<refID> <URI> <ALG>: <hex>`; it is decomposed into the
reference id, the URI, the algorithm and the digest, and extraction "fails if
any component is missing or the checksum sub-grammar is malformed". -/
def specExtractExternalDocumentReference (value : String) :
    Except Error (String × String × String × String) :=
  match specTokens value.data [] with
  | [refID, uri, algColon, digest] =>
    match algColon.reverse with
    | ':' :: algRev =>
      if String.mk algRev.reverse ∈ specAlgorithms then
        if digest ≠ [] ∧ digest.all specHexChar = true then
          .ok (String.mk refID, String.mk uri, String.mk algRev.reverse, String.mk digest)
        else .error ("malformed digest in external document reference: " ++ value)
      else .error ("unknown algorithm in external document reference: " ++ value)
    | _ => .error ("missing algorithm separator in external document reference: " ++ value)
  | _ => .error ("expected reference id, URI and checksum in: " ++ value)

/-- Modelled from the spec: the section-header tags (section 4.1, section 4.2 (a)) of
the sections this model covers: `PackageName` (Scenario A) opens a package
section and `FileName`, the tag of the name field that the error of
`ParseTagValues` prints, opens a file section.  The specification does not name
the tags of the snippet, other-license and review sections; this model does not
open those sections and rejects their tags like any unknown tag. -/
def specIsHeader (tag : String) : Bool :=
  tag = "PackageName" || tag = "FileName"

/-- Modelled from the spec: the structural error of section 7, "a section-header
tag appears while an identifier-setting tag was expected first": a header tag
fails when the open file, which it closes or replaces, has no identifier yet,
and `PackageName` also fails when the open package, which it replaces, has
none.  A file section may lie within the open package (section 3: "scoped
within or after a Package section"), so `FileName` does not examine the
package.  The errors name the entity as those of `ParseTagValues` do. -/
def specHeaderError (parser : tvParser2_3) (tag : String) : Option Error :=
  let packageError : Option Error :=
    if tag = "PackageName" then
      match parser.pkg with
      | some pkg =>
        if pkg.PackageSPDXIdentifier = specNull then
          some ("package with PackageName " ++ pkg.PackageName
            ++ " does not have SPDX identifier")
        else none
      | none => none
    else none
  match parser.file with
  | some file =>
    if file.FileSPDXIdentifier = specNull then
      some ("file with FileName " ++ file.FileName ++ " does not have SPDX identifier")
    else packageError
  | none => packageError

/-- Modelled from the spec: the "new entity" constructor invoked on a section
header tag (section 4.2 (a)): the new entity becomes the open one, with the
identifier unset and the other fields at their defaults, and the state is that
of the new section.  A new package section ends the file section before it; a
new file section leaves the package open. -/
def specOpen (parser : tvParser2_3) (tag value : String) : tvParser2_3 :=
  if tag = "PackageName" then
    { parser with
      st := psPackage2_3,
      pkg := some { PackageName := value, PackageSPDXIdentifier := specNull },
      file := none }
  else if tag = "FileName" then
    { parser with
      st := psFile2_3,
      file := some { FileName := value, FileSPDXIdentifier := specNull } }
  else parser

/-- Modelled from the spec: the identifier-setting tag (section 4.2 (b)): it "fails if
invoked twice on the same open entity and otherwise stores the ElementID",
itself produced by the extraction helper. -/
def specSetIdentifier (current : ElementID) (value : String) : Except Error ElementID :=
  if current ≠ specNull then .error ("identifier already set when parsing SPDXID " ++ value)
  else specExtractElementID value

/-- Modelled from the spec: the creation-info record of a document ("at most one
per document"), or an empty record when the document has none yet. -/
def specInfo (d : Document) : CreationInfo :=
  match d.CreationInfo with
  | some info => info
  | none => { Creators := [], Created := "", CreatorComment := "" }

/-- Modelled from the spec: the entry of the open package in the package
collection follows the open package (the document refers to the entity being
built): when the last entry is the package `pkg`, it becomes `changed`. -/
def specFollow (pkg changed : Package) (packages : List Package) : List Package :=
  if packages.getLast? = some pkg then packages.dropLast ++ [changed] else packages

/-- Modelled from the spec: the tags a section owns (section 4.2, section 6): creators
(multi-valued), creation timestamp and creator comment in CreationInfo, and the
identifier tag `SPDXID` (Scenario A) in Package and File.  Set-once fields are
last-write-wins.  Scenario A ends with the package still open and yields a
document with that package in its collection, and the statements of
`ParseTagValues` after the loop leave the document as it is, so the builder
itself enters the entity in the document: when the identifier is stored, the
package is appended to the packages of the document, and the file is appended
to the files of the open package when there is one (section 3: a file "scoped
within" a package section, which has the "nested collection" of its files) and
to the files of the document otherwise.  The result is `none` when the current
section does not own the tag. -/
def specOwnTag (parser : tvParser2_3) (tag value : String) :
    Option (tvParser2_3 × Option Error) :=
  if parser.st = psCreationInfo2_3 then
    if tag = "Creator" then
      some ({ parser with doc := parser.doc.map (fun d => { d with
        CreationInfo := some { specInfo d with Creators := (specInfo d).Creators ++ [value] } }) },
        none)
    else if tag = "Created" then
      some ({ parser with doc := parser.doc.map (fun d => { d with
        CreationInfo := some { specInfo d with Created := value } }) }, none)
    else if tag = "CreatorComment" then
      some ({ parser with doc := parser.doc.map (fun d => { d with
        CreationInfo := some { specInfo d with CreatorComment := value } }) }, none)
    else none
  else if parser.st = psPackage2_3 then
    if tag = "SPDXID" then
      match parser.pkg with
      | none => some (parser, some ("no open package when parsing SPDXID " ++ value))
      | some pkg =>
        match specSetIdentifier pkg.PackageSPDXIdentifier value with
        | .error err => some (parser, some err)
        | .ok eID =>
          some ({ parser with
            doc := parser.doc.map (fun d => { d with
              Packages := d.Packages ++ [{ pkg with PackageSPDXIdentifier := eID }] }),
            pkg := some { pkg with PackageSPDXIdentifier := eID } }, none)
    else none
  else if parser.st = psFile2_3 then
    if tag = "SPDXID" then
      match parser.file with
      | none => some (parser, some ("no open file when parsing SPDXID " ++ value))
      | some file =>
        match specSetIdentifier file.FileSPDXIdentifier value with
        | .error err => some (parser, some err)
        | .ok eID =>
          match parser.pkg with
          | none =>
            some ({ parser with
              doc := parser.doc.map (fun d => { d with
                Files := d.Files ++ [{ file with FileSPDXIdentifier := eID }] }),
              file := some { file with FileSPDXIdentifier := eID } }, none)
          | some pkg =>
            some ({ parser with
              doc := parser.doc.map (fun d => { d with
                Packages := specFollow pkg
                  { pkg with Files := pkg.Files ++ [{ file with FileSPDXIdentifier := eID }] }
                  d.Packages }),
              pkg := some
                { pkg with Files := pkg.Files ++ [{ file with FileSPDXIdentifier := eID }] },
              file := some { file with FileSPDXIdentifier := eID } }, none)
    else none
  else none

/-- Modelled from the spec: the rule of a section builder (section 4.1): a tag the
section owns updates the open entity; a header tag ends the current section,
changes state and opens the new entity, unless an identifier is still missing
(`specHeaderError`); any other tag is a failure "identifying the offending tag,
the value, and the current state". -/
def specSection (parser : tvParser2_3) (tag value : String) : tvParser2_3 × Option Error :=
  match specOwnTag parser tag value with
  | some result => result
  | none =>
    if specIsHeader tag = true then
      match specHeaderError parser tag with
      | some err => (parser, some err)
      | none => (specOpen parser tag value, none)
    else
      (parser, some ("tag " ++ tag ++ " with value " ++ value
        ++ " not recognized in parser state " ++ toString parser.st))

/-- Modelled from the spec: the builder of the section with state `state`; like
`parsePairFromStart2_3` it refuses to run in another state. -/
def specBuilder (state : tvParserState2_3) : Builder := fun parser tag value =>
  if parser.st ≠ state then
    (parser, some ("got invalid state " ++ toString parser.st ++ " in section builder"))
  else specSection parser tag value

/-- Modelled from the spec: the declarations missing from `parser.go`, as the
specification describes them, for the document, creation-info, package and file
sections. -/
def specExternals : Externals :=
  { nullSpdxElementId2_3 := specNull
    extractElementID := specExtractElementID
    extractExternalDocumentReference := specExtractExternalDocumentReference
    parsePairFromCreationInfo2_3 := specBuilder psCreationInfo2_3
    parsePairFromPackage2_3 := specBuilder psPackage2_3
    parsePairFromFile2_3 := specBuilder psFile2_3
    parsePairFromSnippet2_3 := specBuilder psSnippet2_3
    parsePairFromOtherLicense2_3 := specBuilder psOtherLicense2_3
    parsePairFromReview2_3 := specBuilder psReview2_3 }

/-! ## Concrete pair sequences and the notions used in the statements -/

/-- Scenario A of the specification. -/
def scenarioA : List TagValuePair :=
  [⟨"SPDXVersion", "SPDX-2.3"⟩, ⟨"DataLicense", "CC0-1.0"⟩, ⟨"SPDXID", "SPDXRef-DOCUMENT"⟩,
   ⟨"PackageName", "glibc"⟩, ⟨"SPDXID", "SPDXRef-Package-glibc"⟩]

/-- Scenario B of the specification: Scenario A without the `SPDXID` pair of the
package. -/
def scenarioB : List TagValuePair :=
  [⟨"SPDXVersion", "SPDX-2.3"⟩, ⟨"DataLicense", "CC0-1.0"⟩, ⟨"SPDXID", "SPDXRef-DOCUMENT"⟩,
   ⟨"PackageName", "glibc"⟩]

/-- The value of the pair of Scenario C. -/
def scenarioCValue : String := "DocumentRef-1 https://example.org/doc SHA1: abc123"

/-- A result of `ParseTagValues` that is either a document without an error or
an error without a document. -/
def ExactlyOne (result : Option Document × Option Error) : Prop :=
  (result.1 ≠ none ∧ result.2 = none) ∨ (result.1 = none ∧ result.2 ≠ none)

/-- A builder that, when it returns no error, leaves a document in a parser
that had one. -/
def KeepsDocument (b : Builder) : Prop :=
  ∀ parser tag value, parser.doc ≠ none → (b parser tag value).2 = none →
    (b parser tag value).1.doc ≠ none

/-- All six external section builders keep an existing document. -/
def Externals.KeepDocument (env : Externals) : Prop :=
  KeepsDocument env.parsePairFromCreationInfo2_3 ∧ KeepsDocument env.parsePairFromPackage2_3 ∧
  KeepsDocument env.parsePairFromFile2_3 ∧ KeepsDocument env.parsePairFromSnippet2_3 ∧
  KeepsDocument env.parsePairFromOtherLicense2_3 ∧ KeepsDocument env.parsePairFromReview2_3

/-- The tags `parsePairFromStart2_3` has a `case` for. -/
def startTags : List String :=
  ["DocumentComment", "SPDXVersion", "DataLicense", "SPDXID", "DocumentName",
   "DocumentNamespace", "ExternalDocumentRef"]

/-- The external reference `parsePairFromStart2_3` builds from the value of an
`ExternalDocumentRef` pair, when the extraction succeeds. -/
def referenceOf (env : Externals) (value : String) : Option ExternalDocumentRef :=
  match env.extractExternalDocumentReference value with
  | .ok (documentRefID, uri, alg, checksum) =>
    some { DocumentRefID := documentRefID, URI := uri,
           Checksum := { Algorithm := alg, Value := checksum } }
  | .error _ => none

/-- The `ExternalDocumentRef` pairs of a sequence, in order. -/
def referencePairs (tvs : List TagValuePair) : List TagValuePair :=
  tvs.filter (fun tv => decide (tv.Tag = "ExternalDocumentRef"))

/-- A pair the Start builder handles itself and without error: its tag is one
of the seven document tags and, for `SPDXID` and `ExternalDocumentRef`, the
extraction of its value succeeds. -/
def StartPairOk (env : Externals) (tv : TagValuePair) : Prop :=
  tv.Tag ∈ startTags ∧
  (tv.Tag = "SPDXID" → ∃ eID, env.extractElementID tv.Value = .ok eID) ∧
  (tv.Tag = "ExternalDocumentRef" →
    ∃ r, env.extractExternalDocumentReference tv.Value = .ok r)

/-- The five document tags whose value is stored verbatim: the Start tags
without `SPDXID` and `ExternalDocumentRef`. -/
def setOnceTags : List String :=
  ["SPDXVersion", "DataLicense", "DocumentName", "DocumentNamespace", "DocumentComment"]

/-- The value of the last pair of `tvs` that carries the tag `tag`, or `dflt` when
no pair carries it. -/
def lastValue (tag : String) (tvs : List TagValuePair) (dflt : String) : String :=
  match tvs.reverse.find? (fun tv => decide (tv.Tag = tag)) with
  | some tv => tv.Value
  | none => dflt

/-- A pair sequence with two external references around a document name. -/
def twoReferences : List TagValuePair :=
  [⟨"ExternalDocumentRef", "DocumentRef-1 https://example.org/doc SHA1: abc123"⟩,
   ⟨"DocumentName", "doc"⟩,
   ⟨"ExternalDocumentRef", "DocumentRef-2 https://example.org/two MD5: 0f"⟩]

/-- Modelled from the spec: the builder of the Package state when file sections
are nested in the package (section 3: a File has the "same open/commit
lifecycle as Package, scoped within or after a Package section depending on
grammar position"): the header `FileName` opens the file within the package,
which stays open; every other tag is handled as by `specBuilder`. -/
def nestedPackageBuilder : Builder := fun parser tag value =>
  if parser.st ≠ psPackage2_3 then
    (parser, some ("got invalid state " ++ toString parser.st ++ " in section builder"))
  else if tag = "FileName" then (specOpen parser tag value, none)
  else specSection parser tag value

/-- Modelled from the spec: the declarations missing from `parser.go`, with file
sections nested in the open package (see `nestedPackageBuilder`). -/
def nestedExternals : Externals :=
  { specExternals with parsePairFromPackage2_3 := nestedPackageBuilder }

/-- A pair sequence in which neither the package `glibc` nor the file `a.c`
receives an identifier. -/
def packageAndFileWithoutIdentifier : List TagValuePair :=
  [⟨"SPDXVersion", "SPDX-2.3"⟩, ⟨"PackageName", "glibc"⟩, ⟨"FileName", "a.c"⟩]

/-- The document `d1` agrees with the document `d` outside the field that the
Start tag `tag` writes: every field of another tag and every collection is the
same, and the external references of `d` are the first ones of `d1`. -/
def AgreesOutside (tag : String) (d d1 : Document) : Prop :=
  (tag ≠ "SPDXVersion" → d1.SPDXVersion = d.SPDXVersion) ∧
  (tag ≠ "DataLicense" → d1.DataLicense = d.DataLicense) ∧
  (tag ≠ "SPDXID" → d1.SPDXIdentifier = d.SPDXIdentifier) ∧
  (tag ≠ "DocumentName" → d1.DocumentName = d.DocumentName) ∧
  (tag ≠ "DocumentNamespace" → d1.DocumentNamespace = d.DocumentNamespace) ∧
  (tag ≠ "DocumentComment" → d1.DocumentComment = d.DocumentComment) ∧
  (tag ≠ "ExternalDocumentRef" →
    d1.ExternalDocumentReferences = d.ExternalDocumentReferences) ∧
  d.ExternalDocumentReferences <+: d1.ExternalDocumentReferences ∧
  d1.CreationInfo = d.CreationInfo ∧ d1.Packages = d.Packages ∧ d1.Files = d.Files ∧
  d1.Snippets = d.Snippets ∧ d1.OtherLicenses = d.OtherLicenses ∧ d1.Reviews = d.Reviews

/-- The seven named states of the parser. -/
def namedStates : List tvParserState2_3 :=
  [psStart2_3, psCreationInfo2_3, psPackage2_3, psFile2_3, psSnippet2_3, psOtherLicense2_3,
   psReview2_3]

/-- A builder that never puts a parser that has left the Start state back into
it. -/
def NeverReturnsToStart (b : Builder) : Prop :=
  ∀ parser tag value, parser.st ≠ psStart2_3 → (b parser tag value).1.st ≠ psStart2_3

/-- A builder that never removes the document of a parser, whether it succeeds
or fails. -/
def NeverDropsDocument (b : Builder) : Prop :=
  ∀ parser tag value, parser.doc ≠ none → (b parser tag value).1.doc ≠ none

/-! # Theorems -/

/-! ## Lemmas on the loop -/

theorem ParseTagValues_loop_append (env : Externals) (xs ys : List TagValuePair)
    (parser : tvParser2_3) :
    ParseTagValues_loop env parser (xs ++ ys) =
      match ParseTagValues_loop env parser xs with
      | (parser1, some err) => (parser1, some err)
      | (parser1, none) => ParseTagValues_loop env parser1 ys := by
  induction xs generalizing parser with
  | nil => simp [ParseTagValues_loop]
  | cons tv rest ih =>
    simp only [List.cons_append, ParseTagValues_loop]
    rcases h : parsePair2_3 env parser tv.Tag tv.Value with ⟨parser1, _ | err⟩
    · simpa using ih parser1
    · simp

theorem ParseTagValues_of_loop_ok (env : Externals) (tvs : List TagValuePair)
    (parser : tvParser2_3) (h : ParseTagValues_loop env tvParser2_3.zero tvs = (parser, none)) :
    ParseTagValues env tvs = ParseTagValues_finish env parser := by
  simp [ParseTagValues, h]

theorem ParseTagValues_of_loop_error (env : Externals) (tvs : List TagValuePair)
    (parser : tvParser2_3) (err : Error)
    (h : ParseTagValues_loop env tvParser2_3.zero tvs = (parser, some err)) :
    ParseTagValues env tvs = (none, some err) := by
  simp [ParseTagValues, h]

/-! ## C1: fail-fast -/

/-- C1: `ParseTagValues` is fail-fast.  When the pairs of `pre` are consumed
without error and `parsePair2_3` fails on the next pair `tv`, the result is
exactly that error with no document, whatever pairs `post` follow; the loop
stops with the parser as the failing pair left it, so no later pair is
processed, and the result equals the one for the sequence cut after `tv`. -/
theorem ParseTagValues_fail_fast (env : Externals) (pre post : List TagValuePair)
    (tv : TagValuePair) (parser failed : tvParser2_3) (err : Error)
    (hpre : ParseTagValues_loop env tvParser2_3.zero pre = (parser, none))
    (hfail : parsePair2_3 env parser tv.Tag tv.Value = (failed, some err)) :
    ParseTagValues env (pre ++ tv :: post) = (none, some err) ∧
    ParseTagValues_loop env tvParser2_3.zero (pre ++ tv :: post) = (failed, some err) ∧
    ParseTagValues env (pre ++ tv :: post) = ParseTagValues env (pre ++ [tv]) := by
  have hloop : ∀ rest, ParseTagValues_loop env tvParser2_3.zero (pre ++ tv :: rest)
      = (failed, some err) := by
    intro rest
    rw [ParseTagValues_loop_append, hpre]
    simp [ParseTagValues_loop, hfail]
  refine ⟨ParseTagValues_of_loop_error env _ failed err (hloop post), hloop post, ?_⟩
  rw [ParseTagValues_of_loop_error env _ failed err (hloop post),
    ParseTagValues_of_loop_error env _ failed err (hloop [])]

/-- Witness of C1: after `SPDXVersion`, an `SPDXID` pair whose value is not an
identifier fails, and the `DataLicense` pair after it is never reached. -/
theorem ParseTagValues_fail_fast_witness :
    ParseTagValues_loop specExternals tvParser2_3.zero [⟨"SPDXVersion", "SPDX-2.3"⟩]
      = ({ tvParser2_3.zero with doc := some { Document.fresh with SPDXVersion := "SPDX-2.3" } },
          none) ∧
    ParseTagValues specExternals
        ([⟨"SPDXVersion", "SPDX-2.3"⟩] ++ ⟨"SPDXID", "bad id"⟩ :: [⟨"DataLicense", "CC0-1.0"⟩])
      = (none, some "malformed element identifier: bad id") :=
  ⟨by decide,
   (ParseTagValues_fail_fast specExternals [⟨"SPDXVersion", "SPDX-2.3"⟩]
      [⟨"DataLicense", "CC0-1.0"⟩] ⟨"SPDXID", "bad id"⟩
      { tvParser2_3.zero with doc := some { Document.fresh with SPDXVersion := "SPDX-2.3" } }
      { tvParser2_3.zero with doc := some { Document.fresh with SPDXVersion := "SPDX-2.3" } }
      "malformed element identifier: bad id" (by decide) (by decide)).1⟩

/-! ## C2: shape of the result -/

theorem parsePairFromStart2_3_doc (env : Externals) (hkeep : env.KeepDocument)
    (parser : tvParser2_3) (tag value : String) (hst : parser.st = psStart2_3)
    (hok : (parsePairFromStart2_3 env parser tag value).2 = none) :
    (parsePairFromStart2_3 env parser tag value).1.doc ≠ none := by
  unfold parsePairFromStart2_3 at hok ⊢
  simp only [hst, ne_eq, not_true_eq_false, ↓reduceIte] at hok ⊢
  split_ifs at hok ⊢
  all_goals first
    | exact hkeep.1 _ tag value (by simp) hok
    | (split <;> simp)
    | simp

theorem parsePair2_3_doc (env : Externals) (hkeep : env.KeepDocument)
    (parser : tvParser2_3) (tag value : String)
    (hdoc : parser.st = psStart2_3 ∨ parser.doc ≠ none)
    (hok : (parsePair2_3 env parser tag value).2 = none) :
    (parsePair2_3 env parser tag value).1.doc ≠ none := by
  unfold parsePair2_3 at hok ⊢
  obtain ⟨h1, h2, h3, h4, h5, h6⟩ := hkeep
  split_ifs at hok ⊢ with g0 g1 g2 g3 g4 g5 g6
  · exact parsePairFromStart2_3_doc env ⟨h1, h2, h3, h4, h5, h6⟩ parser tag value g0 hok
  · exact h1 parser tag value (hdoc.resolve_left g0) hok
  · exact h2 parser tag value (hdoc.resolve_left g0) hok
  · exact h3 parser tag value (hdoc.resolve_left g0) hok
  · exact h4 parser tag value (hdoc.resolve_left g0) hok
  · exact h5 parser tag value (hdoc.resolve_left g0) hok
  · exact h6 parser tag value (hdoc.resolve_left g0) hok

theorem ParseTagValues_loop_doc (env : Externals) (hkeep : env.KeepDocument)
    (tvs : List TagValuePair) (parser final : tvParser2_3)
    (hdoc : (tvs ≠ [] ∧ parser.st = psStart2_3) ∨ parser.doc ≠ none)
    (hloop : ParseTagValues_loop env parser tvs = (final, none)) :
    final.doc ≠ none := by
  induction tvs generalizing parser with
  | nil =>
    simp only [ParseTagValues_loop, Prod.mk.injEq, and_true] at hloop
    subst hloop
    rcases hdoc with h | h
    · exact absurd rfl h.1
    · exact h
  | cons tv rest ih =>
    simp only [ParseTagValues_loop] at hloop
    rcases h : parsePair2_3 env parser tv.Tag tv.Value with ⟨parser1, _ | err⟩
    · rw [h] at hloop
      have hstep := parsePair2_3_doc env hkeep parser tv.Tag tv.Value
        (hdoc.imp (fun g => g.2) id) (by rw [h])
      rw [h] at hstep
      exact ih parser1 (Or.inr hstep) hloop
    · rw [h] at hloop
      simp at hloop

theorem ParseTagValues_finish_shape (env : Externals) (parser : tvParser2_3) :
    ParseTagValues_finish env parser = (parser.doc, none) ∨
      ∃ err, ParseTagValues_finish env parser = (none, some err) := by
  unfold ParseTagValues_finish
  rcases hf : parser.file with _ | file <;> rcases hp : parser.pkg with _ | pkg <;>
    simp only <;> (try split_ifs) <;> simp

theorem specOpen_doc (parser : tvParser2_3) (tag value : String) :
    (specOpen parser tag value).doc = parser.doc := by
  unfold specOpen
  split_ifs <;> rfl

theorem specOwnTag_doc (parser : tvParser2_3) (tag value : String)
    (result : tvParser2_3 × Option Error) (h : specOwnTag parser tag value = some result) :
    result.1.doc.isSome = parser.doc.isSome := by
  unfold specOwnTag at h
  split_ifs at h
  all_goals first
    | (cases h; simp)
    | (split at h
       · cases h; rfl
       · split at h
         · cases h; rfl
         · first
            | (cases h; simp)
            | (split at h <;> cases h <;> simp))

theorem specSection_doc (parser : tvParser2_3) (tag value : String)
    (hdoc : parser.doc ≠ none) : (specSection parser tag value).1.doc ≠ none := by
  have hsome : parser.doc.isSome = true := Option.isSome_iff_ne_none.mpr hdoc
  apply Option.isSome_iff_ne_none.mp
  unfold specSection
  rcases hown : specOwnTag parser tag value with _ | result
  · simp only
    split_ifs
    · rcases hc : specHeaderError parser tag with _ | err
      · simp only [specOpen_doc]
        exact hsome
      · simpa using hsome
    · simpa using hsome
  · simp only
    rw [specOwnTag_doc parser tag value result hown]
    exact hsome

theorem specBuilder_keepsDocument (state : tvParserState2_3) :
    KeepsDocument (specBuilder state) := by
  intro parser tag value hdoc _
  unfold specBuilder
  split_ifs
  · exact hdoc
  · exact specSection_doc parser tag value hdoc

theorem specExternals_keepDocument : specExternals.KeepDocument :=
  ⟨specBuilder_keepsDocument _, specBuilder_keepsDocument _, specBuilder_keepsDocument _,
   specBuilder_keepsDocument _, specBuilder_keepsDocument _, specBuilder_keepsDocument _⟩

/-- Counterexample to C2 as stated: on the empty pair sequence the loop body
never runs, no document is created, and `ParseTagValues` returns neither a
document nor an error. -/
theorem ParseTagValues_empty_neither :
    ParseTagValues specExternals [] = (none, none) ∧
    ¬ ExactlyOne (ParseTagValues specExternals []) := by
  refine ⟨rfl, ?_⟩
  intro h
  rcases h with h | h
  · exact h.1 rfl
  · exact h.2 rfl

/-- C2, amended: for every non-empty pair sequence, when the section builders of
the later states keep an existing document, `ParseTagValues` returns exactly one
of a document with no error or an error with no document; for every sequence
it never returns both; on the empty sequence it returns neither. -/
theorem ParseTagValues_exactly_one (env : Externals) (tvs : List TagValuePair)
    (hkeep : env.KeepDocument) (hne : tvs ≠ []) :
    ExactlyOne (ParseTagValues env tvs) ∧
    (∀ other : List TagValuePair,
      ¬ ((ParseTagValues env other).1 ≠ none ∧ (ParseTagValues env other).2 ≠ none)) ∧
    ParseTagValues env [] = (none, none) := by
  have hboth : ∀ other : List TagValuePair,
      ¬ ((ParseTagValues env other).1 ≠ none ∧ (ParseTagValues env other).2 ≠ none) := by
    intro other
    rcases h : ParseTagValues_loop env tvParser2_3.zero other with ⟨final, _ | err⟩
    · rw [ParseTagValues_of_loop_ok env other final h]
      rcases ParseTagValues_finish_shape env final with hs | ⟨err, hs⟩ <;> rw [hs] <;> simp
    · rw [ParseTagValues_of_loop_error env other final err h]
      simp
  refine ⟨?_, hboth, rfl⟩
  rcases h : ParseTagValues_loop env tvParser2_3.zero tvs with ⟨final, _ | err⟩
  · have hdoc : final.doc ≠ none :=
      ParseTagValues_loop_doc env hkeep tvs tvParser2_3.zero final (Or.inl ⟨hne, rfl⟩) h
    rw [ParseTagValues_of_loop_ok env tvs final h]
    rcases ParseTagValues_finish_shape env final with hs | ⟨err, hs⟩ <;> rw [hs]
    · exact Or.inl ⟨hdoc, rfl⟩
    · exact Or.inr ⟨rfl, by simp⟩
  · rw [ParseTagValues_of_loop_error env tvs final err h]
    exact Or.inr ⟨rfl, by simp⟩

/-- Witness of C2 (amended): Scenario A returns a document and no error. -/
theorem ParseTagValues_exactly_one_witness :
    specExternals.KeepDocument ∧ scenarioA ≠ [] ∧ ExactlyOne (ParseTagValues specExternals scenarioA) :=
  ⟨specExternals_keepDocument, by decide,
   (ParseTagValues_exactly_one specExternals scenarioA specExternals_keepDocument
      (by decide)).1⟩

/-! ## C3 and C4: the checks after the loop -/

/-- C3: when all pairs are consumed without error, leaving the parser `parser`,
`ParseTagValues` fails if and only if the open file exists and has the unset
identifier or the open package exists and has the unset identifier; when it
fails no document is returned, and otherwise it returns the document of the
parser and no error. -/
theorem ParseTagValues_fails_iff (env : Externals) (tvs : List TagValuePair)
    (parser : tvParser2_3)
    (hloop : ParseTagValues_loop env tvParser2_3.zero tvs = (parser, none)) :
    ((ParseTagValues env tvs).2 ≠ none ↔
      ((∃ file, parser.file = some file ∧ file.FileSPDXIdentifier = env.nullSpdxElementId2_3) ∨
       (∃ pkg, parser.pkg = some pkg ∧ pkg.PackageSPDXIdentifier = env.nullSpdxElementId2_3))) ∧
    ((ParseTagValues env tvs).2 ≠ none → (ParseTagValues env tvs).1 = none) ∧
    (¬ ((∃ file, parser.file = some file ∧ file.FileSPDXIdentifier = env.nullSpdxElementId2_3) ∨
        (∃ pkg, parser.pkg = some pkg ∧ pkg.PackageSPDXIdentifier = env.nullSpdxElementId2_3)) →
      ParseTagValues env tvs = (parser.doc, none)) := by
  rw [ParseTagValues_of_loop_ok env tvs parser hloop]
  unfold ParseTagValues_finish
  rcases hf : parser.file with _ | file <;> rcases hp : parser.pkg with _ | pkg <;>
    simp only <;> (try split_ifs) <;> simp_all

/-- Witness of C3: Scenario B is consumed without error and leaves the package
`glibc` open with the unset identifier, so `ParseTagValues` fails. -/
theorem ParseTagValues_fails_iff_witness :
    ParseTagValues_loop specExternals tvParser2_3.zero scenarioB
      = ((ParseTagValues_loop specExternals tvParser2_3.zero scenarioB).1, none) ∧
    (ParseTagValues specExternals scenarioB).2 ≠ none :=
  ⟨by decide,
   (ParseTagValues_fails_iff specExternals scenarioB
      (ParseTagValues_loop specExternals tvParser2_3.zero scenarioB).1 (by decide)).1.mpr
      (Or.inr ⟨{ PackageName := "glibc", PackageSPDXIdentifier := specNull }, by decide,
        by decide⟩)⟩

/-- C4: a finalization failure names the entity by its name field.  When all
pairs are consumed without error: an open file with the unset identifier gives
the error "file with FileName <FileName> does not have SPDX identifier"; an
open package with the unset identifier, when no open file lacks one, gives
"package with PackageName <PackageName> does not have SPDX identifier"; for the
package named "glibc" the text is "package with PackageName glibc does not have
SPDX identifier"; in each case no document is returned. -/
theorem ParseTagValues_names_entity (env : Externals) (tvs : List TagValuePair)
    (parser : tvParser2_3)
    (hloop : ParseTagValues_loop env tvParser2_3.zero tvs = (parser, none)) :
    (∀ file, parser.file = some file → file.FileSPDXIdentifier = env.nullSpdxElementId2_3 →
      ParseTagValues env tvs =
        (none, some ("file with FileName " ++ file.FileName ++ " does not have SPDX identifier"))) ∧
    (∀ pkg, parser.pkg = some pkg → pkg.PackageSPDXIdentifier = env.nullSpdxElementId2_3 →
      ¬ (∃ file, parser.file = some file ∧ file.FileSPDXIdentifier = env.nullSpdxElementId2_3) →
      ParseTagValues env tvs =
        (none, some ("package with PackageName " ++ pkg.PackageName
          ++ " does not have SPDX identifier"))) ∧
    (∀ pkg, parser.pkg = some pkg → pkg.PackageSPDXIdentifier = env.nullSpdxElementId2_3 →
      pkg.PackageName = "glibc" →
      ¬ (∃ file, parser.file = some file ∧ file.FileSPDXIdentifier = env.nullSpdxElementId2_3) →
      ParseTagValues env tvs =
        (none, some "package with PackageName glibc does not have SPDX identifier")) := by
  rw [ParseTagValues_of_loop_ok env tvs parser hloop]
  have hpkg : ∀ pkg, parser.pkg = some pkg →
      pkg.PackageSPDXIdentifier = env.nullSpdxElementId2_3 →
      ¬ (∃ file, parser.file = some file ∧ file.FileSPDXIdentifier = env.nullSpdxElementId2_3) →
      ParseTagValues_finish env parser =
        (none, some ("package with PackageName " ++ pkg.PackageName
          ++ " does not have SPDX identifier")) := by
    intro pkg hp hid hfile
    unfold ParseTagValues_finish
    rcases hf : parser.file with _ | file
    · simp [hp, hid]
    · have hne : file.FileSPDXIdentifier ≠ env.nullSpdxElementId2_3 :=
        fun h => hfile ⟨file, hf, h⟩
      simp [hp, hid, hne]
  refine ⟨?_, hpkg, ?_⟩
  · intro file hf hid
    unfold ParseTagValues_finish
    simp [hf, hid]
  · intro pkg hp hid hname hfile
    rw [hpkg pkg hp hid hfile, hname]
    rfl

/-- Witness of C4: Scenario B (Scenario A without the `SPDXID` pair of the
package) fails naming the package "glibc" and returns no document. -/
theorem ParseTagValues_names_entity_witness :
    ParseTagValues_loop specExternals tvParser2_3.zero scenarioB
      = ((ParseTagValues_loop specExternals tvParser2_3.zero scenarioB).1, none) ∧
    ParseTagValues specExternals scenarioB =
      (none, some "package with PackageName glibc does not have SPDX identifier") :=
  ⟨by decide,
   (ParseTagValues_names_entity specExternals scenarioB
      (ParseTagValues_loop specExternals tvParser2_3.zero scenarioB).1 (by decide)).2.2
      { PackageName := "glibc", PackageSPDXIdentifier := specNull } (by decide) (by decide)
      (by decide) (by decide)⟩

/-! ## Lemmas on one pair in the Start state -/

theorem parsePairFromStart2_3_default (env : Externals) (parser : tvParser2_3)
    (tag value : String) (hst : parser.st = psStart2_3) (htag : tag ∉ startTags) :
    parsePairFromStart2_3 env parser tag value =
      env.parsePairFromCreationInfo2_3
        { parser with doc := some (parser.doc.getD Document.fresh), st := psCreationInfo2_3 }
        tag value := by
  simp only [startTags, List.mem_cons, List.mem_singleton, List.not_mem_nil, or_false,
    not_or] at htag
  obtain ⟨t1, t2, t3, t4, t5, t6, t7⟩ := htag
  unfold parsePairFromStart2_3
  simp only [hst, ne_eq, not_true_eq_false, ↓reduceIte, t1, t2, t3, t4, t5, t6, t7]
  cases parser.doc <;> rfl

theorem parsePairFromStart2_3_agrees (env : Externals) (parser : tvParser2_3)
    (tag value : String) (hst : parser.st = psStart2_3) (htag : tag ∈ startTags) :
    ∃ d1, (parsePairFromStart2_3 env parser tag value).1.doc = some d1 ∧
      AgreesOutside tag (parser.doc.getD Document.fresh) d1 := by
  simp only [startTags, List.mem_cons, List.mem_singleton, List.not_mem_nil, or_false] at htag
  unfold parsePairFromStart2_3 AgreesOutside
  simp only [hst, ne_eq, not_true_eq_false, ↓reduceIte]
  rcases parser.doc with _ | d <;> rcases htag with h | h | h | h | h | h | h <;> subst h
  all_goals
    (rcases env.extractElementID value with err | eID <;>
      rcases env.extractExternalDocumentReference value with err2 | ⟨r, u, a, c⟩ <;> simp)

theorem specOwnTag_st (parser : tvParser2_3) (tag value : String)
    (result : tvParser2_3 × Option Error) (h : specOwnTag parser tag value = some result) :
    result.1.st = parser.st := by
  unfold specOwnTag at h
  split_ifs at h
  all_goals first
    | (cases h; rfl)
    | (split at h
       · cases h; rfl
       · split at h
         · cases h; rfl
         · first
            | (cases h; rfl)
            | (split at h <;> cases h <;> rfl))

theorem specOwnTag_error (parser : tvParser2_3) (tag value : String)
    (result : tvParser2_3 × Option Error) (h : specOwnTag parser tag value = some result)
    (herr : result.2 ≠ none) : result.1 = parser := by
  unfold specOwnTag at h
  split_ifs at h
  all_goals first
    | (cases h; first | rfl | exact absurd rfl herr)
    | (split at h
       · cases h; rfl
       · split at h
         · cases h; rfl
         · first
            | (cases h; exact absurd rfl herr)
            | (split at h <;> cases h <;> exact absurd rfl herr))

theorem specSection_st (parser : tvParser2_3) (tag value : String) :
    (specSection parser tag value).1.st = parser.st ∨
      (specSection parser tag value).1.st = psPackage2_3 ∨
      (specSection parser tag value).1.st = psFile2_3 := by
  unfold specSection
  rcases hown : specOwnTag parser tag value with _ | result
  · simp only
    split_ifs
    · rcases specHeaderError parser tag with _ | err
      · simp only [specOpen]
        split_ifs
        · exact Or.inr (Or.inl rfl)
        · exact Or.inr (Or.inr rfl)
        · exact Or.inl rfl
      · exact Or.inl rfl
    · exact Or.inl rfl
  · exact Or.inl (specOwnTag_st parser tag value result hown)

theorem specSection_error (parser : tvParser2_3) (tag value : String)
    (herr : (specSection parser tag value).2 ≠ none) :
    (specSection parser tag value).1 = parser := by
  unfold specSection at herr ⊢
  rcases hown : specOwnTag parser tag value with _ | result
  · rw [hown] at herr
    simp only at herr ⊢
    split_ifs at herr ⊢
    · rcases hh : specHeaderError parser tag with _ | err
      · rw [hh] at herr
        exact absurd rfl herr
      · rfl
    · rfl
  · rw [hown] at herr
    exact specOwnTag_error parser tag value result hown herr

theorem specBuilder_neverReturnsToStart (state : tvParserState2_3) :
    NeverReturnsToStart (specBuilder state) := by
  intro parser tag value hst
  unfold specBuilder
  split_ifs
  · exact hst
  · rcases specSection_st parser tag value with h | h | h <;> rw [h]
    · exact hst
    · decide
    · decide

theorem specBuilder_error (state : tvParserState2_3) (parser : tvParser2_3)
    (tag value : String) (herr : (specBuilder state parser tag value).2 ≠ none) :
    (specBuilder state parser tag value).1 = parser := by
  unfold specBuilder at herr ⊢
  split_ifs at herr ⊢
  · rfl
  · exact specSection_error parser tag value herr

theorem specBuilder_neverDropsDocument (state : tvParserState2_3) :
    NeverDropsDocument (specBuilder state) := by
  intro parser tag value hdoc
  unfold specBuilder
  split_ifs
  · exact hdoc
  · exact specSection_doc parser tag value hdoc

theorem specOwnTag_creationInfo (parser : tvParser2_3) (tag value : String) (d : Document)
    (result : tvParser2_3 × Option Error) (hst : parser.st = psCreationInfo2_3)
    (hdoc : parser.doc = some d) (h : specOwnTag parser tag value = some result) :
    ∃ d1, result.1.doc = some d1 ∧ { d1 with CreationInfo := d.CreationInfo } = d := by
  unfold specOwnTag at h
  rw [if_pos hst] at h
  simp only [hdoc, Option.map_some'] at h
  split_ifs at h <;> cases h <;> exact ⟨_, rfl, rfl⟩

theorem specBuilder_creationInfo (parser : tvParser2_3) (tag value : String) (d : Document)
    (hst : parser.st = psCreationInfo2_3) (hdoc : parser.doc = some d) :
    ∃ d1, (specBuilder psCreationInfo2_3 parser tag value).1.doc = some d1 ∧
      { d1 with CreationInfo := d.CreationInfo } = d := by
  unfold specBuilder
  rw [if_neg (not_not.mpr hst)]
  unfold specSection
  rcases hown : specOwnTag parser tag value with _ | result
  · simp only
    split_ifs
    · rcases specHeaderError parser tag with _ | err
      · exact ⟨d, by rw [specOpen_doc, hdoc], rfl⟩
      · exact ⟨d, hdoc, rfl⟩
    · exact ⟨d, hdoc, rfl⟩
  · exact specOwnTag_creationInfo parser tag value d result hst hdoc hown

/-! ## C5, C6, C7: one pair in the Start state -/

/-- C5: in the Start state, for a tag that is none of the seven document tags
(compared exactly, so case matters), `parsePairFromStart2_3` sets the state to
CreationInfo and returns exactly what `parsePairFromCreationInfo2_3` returns on
the same tag and value, so every error is that of the CreationInfo builder.
The state has left Start afterwards, also when the builder fails: for every
builder that never puts a parser back into the Start state, and in
particular for the builder modelled from the spec, which on failure leaves
the parser as it received it, in the CreationInfo state. -/
theorem parsePairFromStart2_3_falls_through (env : Externals) (parser : tvParser2_3)
    (tag value : String) (hst : parser.st = psStart2_3) (htag : tag ∉ startTags) :
    parsePairFromStart2_3 env parser tag value =
      env.parsePairFromCreationInfo2_3
        { parser with doc := some (parser.doc.getD Document.fresh), st := psCreationInfo2_3 }
        tag value ∧
    (NeverReturnsToStart env.parsePairFromCreationInfo2_3 →
      (parsePairFromStart2_3 env parser tag value).1.st ≠ psStart2_3) ∧
    (parsePairFromStart2_3 specExternals parser tag value).1.st ≠ psStart2_3 ∧
    ((parsePairFromStart2_3 specExternals parser tag value).2 ≠ none →
      (parsePairFromStart2_3 specExternals parser tag value).1 =
        { parser with doc := some (parser.doc.getD Document.fresh), st := psCreationInfo2_3 }) := by
  have hne : psCreationInfo2_3 ≠ psStart2_3 := by decide
  have hgen : ∀ e : Externals, NeverReturnsToStart e.parsePairFromCreationInfo2_3 →
      (parsePairFromStart2_3 e parser tag value).1.st ≠ psStart2_3 := by
    intro e hnever
    rw [parsePairFromStart2_3_default e parser tag value hst htag]
    exact hnever _ tag value hne
  refine ⟨parsePairFromStart2_3_default env parser tag value hst htag, hgen env,
    hgen specExternals (specBuilder_neverReturnsToStart psCreationInfo2_3), ?_⟩
  intro herr
  rw [parsePairFromStart2_3_default specExternals parser tag value hst htag] at herr ⊢
  exact specBuilder_error psCreationInfo2_3 _ tag value herr

/-- Witness of C5: the tag `spdxversion` differs from `SPDXVersion` in case
only; a fresh parser hands it to the CreationInfo builder, which rejects it, and
the state is CreationInfo, not Start, afterwards. -/
theorem parsePairFromStart2_3_falls_through_witness :
    tvParser2_3.zero.st = psStart2_3 ∧ "spdxversion" ∉ startTags ∧
    parsePairFromStart2_3 specExternals tvParser2_3.zero "spdxversion" "SPDX-2.3" =
      ({ tvParser2_3.zero with doc := some Document.fresh, st := psCreationInfo2_3 },
        some "tag spdxversion with value SPDX-2.3 not recognized in parser state 1") ∧
    NeverReturnsToStart specExternals.parsePairFromCreationInfo2_3 ∧
    (parsePairFromStart2_3 specExternals tvParser2_3.zero "spdxversion" "SPDX-2.3").1.st
      ≠ psStart2_3 :=
  ⟨by decide, by decide,
   (parsePairFromStart2_3_falls_through specExternals tvParser2_3.zero "spdxversion" "SPDX-2.3"
      (by decide) (by decide)).1.trans (by decide),
   specBuilder_neverReturnsToStart psCreationInfo2_3,
   (parsePairFromStart2_3_falls_through specExternals tvParser2_3.zero "spdxversion" "SPDX-2.3"
      (by decide) (by decide)).2.1 (specBuilder_neverReturnsToStart psCreationInfo2_3)⟩

/-- C6: in the Start state with a document `d` present, each of the tags
`DocumentComment`, `SPDXVersion`, `DataLicense`, `DocumentName`,
`DocumentNamespace` returns no error and leaves the parser as it was except
that the corresponding field of the document holds the value verbatim; `SPDXID`
does the same with `SPDXIdentifier` and the extracted identifier when the
extraction succeeds.  Every other field of the document, its list of external
references, the open-entity slots and the state (Start) are unchanged. -/
theorem parsePairFromStart2_3_sets_field (env : Externals) (parser : tvParser2_3)
    (d : Document) (value : String) (hst : parser.st = psStart2_3)
    (hdoc : parser.doc = some d) :
    parsePairFromStart2_3 env parser "DocumentComment" value =
      ({ parser with doc := some { d with DocumentComment := value } }, none) ∧
    parsePairFromStart2_3 env parser "SPDXVersion" value =
      ({ parser with doc := some { d with SPDXVersion := value } }, none) ∧
    parsePairFromStart2_3 env parser "DataLicense" value =
      ({ parser with doc := some { d with DataLicense := value } }, none) ∧
    parsePairFromStart2_3 env parser "DocumentName" value =
      ({ parser with doc := some { d with DocumentName := value } }, none) ∧
    parsePairFromStart2_3 env parser "DocumentNamespace" value =
      ({ parser with doc := some { d with DocumentNamespace := value } }, none) ∧
    (∀ eID, env.extractElementID value = .ok eID →
      parsePairFromStart2_3 env parser "SPDXID" value =
        ({ parser with doc := some { d with SPDXIdentifier := eID } }, none)) ∧
    (∀ tag, tag ∈ ["DocumentComment", "SPDXVersion", "DataLicense", "DocumentName",
        "DocumentNamespace", "SPDXID"] →
      (parsePairFromStart2_3 env parser tag value).2 = none →
      (parsePairFromStart2_3 env parser tag value).1.st = psStart2_3 ∧
      (parsePairFromStart2_3 env parser tag value).1.pkg = parser.pkg ∧
      (parsePairFromStart2_3 env parser tag value).1.file = parser.file ∧
      (parsePairFromStart2_3 env parser tag value).1.snippet = parser.snippet ∧
      (parsePairFromStart2_3 env parser tag value).1.otherLic = parser.otherLic ∧
      (parsePairFromStart2_3 env parser tag value).1.rev = parser.rev ∧
      ∃ d1, (parsePairFromStart2_3 env parser tag value).1.doc = some d1 ∧
        d1.ExternalDocumentReferences = d.ExternalDocumentReferences ∧
        d1.CreationInfo = d.CreationInfo ∧ d1.Packages = d.Packages ∧ d1.Files = d.Files ∧
        d1.Snippets = d.Snippets ∧ d1.OtherLicenses = d.OtherLicenses ∧
        d1.Reviews = d.Reviews) := by
  have hid : ∀ eID, env.extractElementID value = .ok eID →
      parsePairFromStart2_3 env parser "SPDXID" value =
        ({ parser with doc := some { d with SPDXIdentifier := eID } }, none) := by
    intro eID he
    simp [parsePairFromStart2_3, hst, hdoc, he]
  have h1 : parsePairFromStart2_3 env parser "DocumentComment" value =
      ({ parser with doc := some { d with DocumentComment := value } }, none) := by
    simp [parsePairFromStart2_3, hst, hdoc]
  have h2 : parsePairFromStart2_3 env parser "SPDXVersion" value =
      ({ parser with doc := some { d with SPDXVersion := value } }, none) := by
    simp [parsePairFromStart2_3, hst, hdoc]
  have h3 : parsePairFromStart2_3 env parser "DataLicense" value =
      ({ parser with doc := some { d with DataLicense := value } }, none) := by
    simp [parsePairFromStart2_3, hst, hdoc]
  have h4 : parsePairFromStart2_3 env parser "DocumentName" value =
      ({ parser with doc := some { d with DocumentName := value } }, none) := by
    simp [parsePairFromStart2_3, hst, hdoc]
  have h5 : parsePairFromStart2_3 env parser "DocumentNamespace" value =
      ({ parser with doc := some { d with DocumentNamespace := value } }, none) := by
    simp [parsePairFromStart2_3, hst, hdoc]
  refine ⟨h1, h2, h3, h4, h5, hid, ?_⟩
  intro tag htag hok
  simp only [List.mem_cons, List.mem_singleton, List.not_mem_nil, or_false] at htag
  rcases htag with rfl | rfl | rfl | rfl | rfl | rfl
  · rw [h1]; exact ⟨hst, rfl, rfl, rfl, rfl, rfl, _, rfl, rfl, rfl, rfl, rfl, rfl, rfl, rfl⟩
  · rw [h2]; exact ⟨hst, rfl, rfl, rfl, rfl, rfl, _, rfl, rfl, rfl, rfl, rfl, rfl, rfl, rfl⟩
  · rw [h3]; exact ⟨hst, rfl, rfl, rfl, rfl, rfl, _, rfl, rfl, rfl, rfl, rfl, rfl, rfl, rfl⟩
  · rw [h4]; exact ⟨hst, rfl, rfl, rfl, rfl, rfl, _, rfl, rfl, rfl, rfl, rfl, rfl, rfl, rfl⟩
  · rw [h5]; exact ⟨hst, rfl, rfl, rfl, rfl, rfl, _, rfl, rfl, rfl, rfl, rfl, rfl, rfl, rfl⟩
  · rcases he : env.extractElementID value with err | eID
    · simp [parsePairFromStart2_3, hst, hdoc, he] at hok
    · rw [hid eID he]
      exact ⟨hst, rfl, rfl, rfl, rfl, rfl, _, rfl, rfl, rfl, rfl, rfl, rfl, rfl, rfl⟩

/-- Witness of C6: on a parser that holds the fresh document, `DocumentName`
sets the name and `SPDXID` sets the identifier. -/
theorem parsePairFromStart2_3_sets_field_witness :
    ({ tvParser2_3.zero with doc := some Document.fresh } : tvParser2_3).st = psStart2_3 ∧
    parsePairFromStart2_3 specExternals { tvParser2_3.zero with doc := some Document.fresh }
        "DocumentName" "SPDXRef-DOCUMENT" =
      ({ tvParser2_3.zero with
          doc := some { Document.fresh with DocumentName := "SPDXRef-DOCUMENT" } }, none) ∧
    parsePairFromStart2_3 specExternals { tvParser2_3.zero with doc := some Document.fresh }
        "SPDXID" "SPDXRef-DOCUMENT" =
      ({ tvParser2_3.zero with
          doc := some { Document.fresh with SPDXIdentifier := "SPDXRef-DOCUMENT" } }, none) :=
  ⟨by decide,
   (parsePairFromStart2_3_sets_field specExternals
      { tvParser2_3.zero with doc := some Document.fresh } Document.fresh "SPDXRef-DOCUMENT"
      (by decide) rfl).2.2.2.1,
   (parsePairFromStart2_3_sets_field specExternals
      { tvParser2_3.zero with doc := some Document.fresh } Document.fresh "SPDXRef-DOCUMENT"
      (by decide) rfl).2.2.2.2.2.1 "SPDXRef-DOCUMENT" (by rfl)⟩

/-- C7: in the Start state, an `ExternalDocumentRef` pair whose value extracts
to `(refID, uri, alg, digest)` returns no error and leaves the parser as it was
except that the list of external references of the document (the fresh one
when the parser held none) has one more entry, at the end: the reference with
`DocumentRefID = refID`, `URI = uri` and `Checksum = (alg, digest)`.  Earlier
entries, the other fields of the document and the state are unchanged. -/
theorem parsePairFromStart2_3_appends_reference (env : Externals) (parser : tvParser2_3)
    (value refID uri alg digest : String) (hst : parser.st = psStart2_3)
    (hext : env.extractExternalDocumentReference value = .ok (refID, uri, alg, digest)) :
    parsePairFromStart2_3 env parser "ExternalDocumentRef" value =
      ({ parser with doc := some { parser.doc.getD Document.fresh with
          ExternalDocumentReferences :=
            (parser.doc.getD Document.fresh).ExternalDocumentReferences ++
              [{ DocumentRefID := refID, URI := uri,
                 Checksum := { Algorithm := alg, Value := digest } }] } }, none) ∧
    (parsePairFromStart2_3 env parser "ExternalDocumentRef" value).1.st = psStart2_3 ∧
    ∃ d1, (parsePairFromStart2_3 env parser "ExternalDocumentRef" value).1.doc = some d1 ∧
      d1.ExternalDocumentReferences.length =
        (parser.doc.getD Document.fresh).ExternalDocumentReferences.length + 1 ∧
      d1.ExternalDocumentReferences.take
          (parser.doc.getD Document.fresh).ExternalDocumentReferences.length =
        (parser.doc.getD Document.fresh).ExternalDocumentReferences ∧
      d1.ExternalDocumentReferences.getLast? =
        some { DocumentRefID := refID, URI := uri,
               Checksum := { Algorithm := alg, Value := digest } } := by
  have heq : parsePairFromStart2_3 env parser "ExternalDocumentRef" value =
      ({ parser with doc := some { parser.doc.getD Document.fresh with
          ExternalDocumentReferences :=
            (parser.doc.getD Document.fresh).ExternalDocumentReferences ++
              [{ DocumentRefID := refID, URI := uri,
                 Checksum := { Algorithm := alg, Value := digest } }] } }, none) := by
    unfold parsePairFromStart2_3
    simp only [hst, ne_eq, not_true_eq_false, ↓reduceIte, hext]
    cases parser.doc <;> simp
  refine ⟨heq, ?_, ?_⟩
  · rw [heq]; exact hst
  · rw [heq]
    exact ⟨_, rfl, by simp, by simp, by simp⟩

/-- Witness of C7: on a fresh parser the pair of Scenario C yields a one-element
list holding the reference id, the URI `https://example.org/doc` and the
checksum `SHA1`, `abc123` that the extraction returns. -/
theorem parsePairFromStart2_3_appends_reference_witness :
    tvParser2_3.zero.st = psStart2_3 ∧
    specExternals.extractExternalDocumentReference scenarioCValue =
      .ok ("DocumentRef-1", "https://example.org/doc", "SHA1", "abc123") ∧
    parsePairFromStart2_3 specExternals tvParser2_3.zero "ExternalDocumentRef" scenarioCValue =
      ({ tvParser2_3.zero with doc := some { Document.fresh with
          ExternalDocumentReferences :=
            [{ DocumentRefID := "DocumentRef-1", URI := "https://example.org/doc",
               Checksum := { Algorithm := "SHA1", Value := "abc123" } }] } }, none) :=
  ⟨by decide, by rfl,
   (parsePairFromStart2_3_appends_reference specExternals tvParser2_3.zero scenarioCValue
      "DocumentRef-1" "https://example.org/doc" "SHA1" "abc123" (by decide) (by rfl)).1⟩

/-! ## C8: order and number of external references -/

theorem parsePair2_3_start_ok (env : Externals) (parser : tvParser2_3) (tv : TagValuePair)
    (hst : parser.st = psStart2_3) (hok : StartPairOk env tv) :
    ∃ d1, parsePair2_3 env parser tv.Tag tv.Value = ({ parser with doc := some d1 }, none) ∧
      d1.ExternalDocumentReferences.map some =
        (parser.doc.getD Document.fresh).ExternalDocumentReferences.map some ++
          (referencePairs [tv]).map (fun tv => referenceOf env tv.Value) := by
  obtain ⟨hmem, hid, href⟩ := hok
  simp only [startTags, List.mem_cons, List.mem_singleton, List.not_mem_nil, or_false] at hmem
  have hget : (match parser.doc with
      | none => Document.fresh
      | some d => d) = parser.doc.getD Document.fresh := by
    cases parser.doc <;> rfl
  unfold parsePair2_3 parsePairFromStart2_3
  simp only [hst, ne_eq, not_true_eq_false, ↓reduceIte, hget, referencePairs]
  rcases hmem with h | h | h | h | h | h | h
  · simp [h]
  · simp [h]
  · simp [h]
  · obtain ⟨eID, he⟩ := hid h
    simp [h, he]
  · simp [h]
  · simp [h]
  · obtain ⟨⟨r, u, a, c⟩, he⟩ := href h
    simp [h, he, referenceOf]

theorem referencePairs_cons (tv : TagValuePair) (rest : List TagValuePair) :
    referencePairs (tv :: rest) = referencePairs [tv] ++ referencePairs rest := by
  unfold referencePairs
  rw [← List.filter_append]
  rfl

theorem ParseTagValues_loop_start_ok (env : Externals) (tvs : List TagValuePair)
    (parser : tvParser2_3) (hst : parser.st = psStart2_3)
    (hall : ∀ tv ∈ tvs, StartPairOk env tv) :
    ∃ final, ParseTagValues_loop env parser tvs = (final, none) ∧
      final.st = psStart2_3 ∧ final.pkg = parser.pkg ∧ final.file = parser.file ∧
      (tvs ≠ [] → final.doc ≠ none) ∧ (tvs = [] → final.doc = parser.doc) ∧
      (final.doc.getD Document.fresh).ExternalDocumentReferences.map some =
        (parser.doc.getD Document.fresh).ExternalDocumentReferences.map some ++
          (referencePairs tvs).map (fun tv => referenceOf env tv.Value) := by
  induction tvs generalizing parser with
  | nil => exact ⟨parser, rfl, hst, rfl, rfl, fun h => absurd rfl h, fun _ => rfl, by
      simp [referencePairs]⟩
  | cons tv rest ih =>
    obtain ⟨d1, hstep, hrefs⟩ :=
      parsePair2_3_start_ok env parser tv hst (hall tv (List.mem_cons_self tv rest))
    obtain ⟨final, hloop, h1, h2, h3, h4, h5, h6⟩ :=
      ih { parser with doc := some d1 } hst (fun x hx => hall x (List.mem_cons_of_mem tv hx))
    refine ⟨final, ?_, h1, h2, h3, ?_, fun h => absurd h (List.cons_ne_nil tv rest), ?_⟩
    · simp only [ParseTagValues_loop, hstep]
      exact hloop
    · intro _
      rcases rest with _ | ⟨x, xs⟩
      · rw [h5 rfl]; simp
      · exact h4 (List.cons_ne_nil x xs)
    · rw [h6, referencePairs_cons, List.map_append, ← List.append_assoc]
      congr 1

/-- C8: for every pair sequence made of Start-recognized document tags on which
every extraction succeeds, `ParseTagValues` returns no error, returns a
document as soon as the sequence is not empty, and the list of external
references of the returned document has exactly as many entries as the input
has `ExternalDocumentRef` pairs, the i-th entry being the reference built from
the i-th such pair. -/
theorem ParseTagValues_references_in_order (env : Externals) (tvs : List TagValuePair)
    (hall : ∀ tv ∈ tvs, StartPairOk env tv) :
    (ParseTagValues env tvs).2 = none ∧
    (tvs ≠ [] → ∃ d, ParseTagValues env tvs = (some d, none)) ∧
    (∀ d, (ParseTagValues env tvs).1 = some d →
      d.ExternalDocumentReferences.length = (referencePairs tvs).length ∧
      d.ExternalDocumentReferences.map some =
        (referencePairs tvs).map (fun tv => referenceOf env tv.Value) ∧
      ∀ i : Nat, (d.ExternalDocumentReferences[i]?).map some =
        ((referencePairs tvs)[i]?).map (fun tv : TagValuePair => referenceOf env tv.Value)) := by
  obtain ⟨final, hloop, _, hpkg, hfile, hdoc, _, hrefs⟩ :=
    ParseTagValues_loop_start_ok env tvs tvParser2_3.zero rfl hall
  have hres : ParseTagValues env tvs = (final.doc, none) := by
    rw [ParseTagValues_of_loop_ok env tvs final hloop]
    unfold ParseTagValues_finish
    rw [hpkg, hfile]
    rfl
  rw [hres]
  refine ⟨rfl, ?_, ?_⟩
  · intro hne
    obtain ⟨d, hd⟩ := Option.ne_none_iff_exists.mp (hdoc hne)
    exact ⟨d, by rw [← hd]⟩
  · intro d hd
    simp only at hd
    rw [hd] at hrefs
    have hmap : d.ExternalDocumentReferences.map some =
        (referencePairs tvs).map (fun tv => referenceOf env tv.Value) := by
      simpa [tvParser2_3.zero, Document.fresh] using hrefs
    refine ⟨?_, hmap, ?_⟩
    · have := congrArg List.length hmap
      simpa using this
    · intro i
      have := congrArg (fun l => l[i]?) hmap
      simpa using this

/-- Witness of C8: three pairs, two of them external references; the returned
document lists the two references in input order. -/
theorem ParseTagValues_references_in_order_witness :
    (∀ tv ∈ twoReferences, StartPairOk specExternals tv) ∧
    (∃ d, ParseTagValues specExternals twoReferences = (some d, none)) ∧
    ParseTagValues specExternals twoReferences =
      (some { Document.fresh with
        DocumentName := "doc",
        ExternalDocumentReferences :=
          [{ DocumentRefID := "DocumentRef-1", URI := "https://example.org/doc",
             Checksum := { Algorithm := "SHA1", Value := "abc123" } },
           { DocumentRefID := "DocumentRef-2", URI := "https://example.org/two",
             Checksum := { Algorithm := "MD5", Value := "0f" } }] }, none) :=
  have hall : ∀ tv ∈ twoReferences, StartPairOk specExternals tv := by
    intro tv htv
    simp only [twoReferences, List.mem_cons, List.mem_singleton, List.not_mem_nil,
      or_false] at htv
    rcases htv with rfl | rfl | rfl
    · exact ⟨by decide, fun h => absurd h (by decide), fun _ => ⟨_, rfl⟩⟩
    · exact ⟨by decide, fun h => absurd h (by decide), fun h => absurd h (by decide)⟩
    · exact ⟨by decide, fun h => absurd h (by decide), fun _ => ⟨_, rfl⟩⟩
  ⟨hall, (ParseTagValues_references_in_order specExternals twoReferences hall).2.1 (by decide),
   by decide⟩

/-! ## C9: repeated document tags are last-write-wins -/

theorem lastValue_nil (tag dflt : String) : lastValue tag [] dflt = dflt := rfl

theorem lastValue_cons (tag : String) (tv : TagValuePair) (rest : List TagValuePair)
    (dflt : String) :
    lastValue tag (tv :: rest) dflt =
      lastValue tag rest (if tv.Tag = tag then tv.Value else dflt) := by
  unfold lastValue
  rw [List.reverse_cons, List.find?_append]
  rcases h : rest.reverse.find? (fun tv => decide (tv.Tag = tag)) with _ | found
  · by_cases ht : tv.Tag = tag <;> simp [h, ht]
  · simp [h]

theorem parsePair2_3_set_once (env : Externals) (parser : tvParser2_3) (tv : TagValuePair)
    (hst : parser.st = psStart2_3) (htag : tv.Tag ∈ setOnceTags) :
    parsePair2_3 env parser tv.Tag tv.Value =
      ({ parser with doc := some { parser.doc.getD Document.fresh with
          SPDXVersion := lastValue "SPDXVersion" [tv] (parser.doc.getD Document.fresh).SPDXVersion,
          DataLicense := lastValue "DataLicense" [tv] (parser.doc.getD Document.fresh).DataLicense,
          DocumentName :=
            lastValue "DocumentName" [tv] (parser.doc.getD Document.fresh).DocumentName,
          DocumentNamespace :=
            lastValue "DocumentNamespace" [tv] (parser.doc.getD Document.fresh).DocumentNamespace,
          DocumentComment :=
            lastValue "DocumentComment" [tv] (parser.doc.getD Document.fresh).DocumentComment } },
        none) := by
  simp only [setOnceTags, List.mem_cons, List.mem_singleton, List.not_mem_nil, or_false] at htag
  unfold parsePair2_3 parsePairFromStart2_3
  simp only [hst, ne_eq, not_true_eq_false, ↓reduceIte, lastValue_cons, lastValue_nil]
  rcases hd : parser.doc with _ | d <;>
    rcases htag with h | h | h | h | h <;> simp [h]

theorem ParseTagValues_loop_set_once (env : Externals) (tvs : List TagValuePair)
    (parser : tvParser2_3) (hst : parser.st = psStart2_3)
    (hdoc : parser.doc ≠ none) (hall : ∀ tv ∈ tvs, tv.Tag ∈ setOnceTags) :
    ParseTagValues_loop env parser tvs =
      ({ parser with doc := some { parser.doc.getD Document.fresh with
          SPDXVersion := lastValue "SPDXVersion" tvs (parser.doc.getD Document.fresh).SPDXVersion,
          DataLicense := lastValue "DataLicense" tvs (parser.doc.getD Document.fresh).DataLicense,
          DocumentName :=
            lastValue "DocumentName" tvs (parser.doc.getD Document.fresh).DocumentName,
          DocumentNamespace :=
            lastValue "DocumentNamespace" tvs (parser.doc.getD Document.fresh).DocumentNamespace,
          DocumentComment :=
            lastValue "DocumentComment" tvs (parser.doc.getD Document.fresh).DocumentComment } },
        none) := by
  induction tvs generalizing parser with
  | nil =>
    obtain ⟨d, hd⟩ := Option.ne_none_iff_exists.mp hdoc
    simp only [ParseTagValues_loop, lastValue_nil, ← hd, Option.getD_some]
    rcases parser with ⟨doc, st, pkg, file, snippet, otherLic, rev⟩
    simp only at hd
    subst hd
    rfl
  | cons tv rest ih =>
    have hstep := parsePair2_3_set_once env parser tv hst (hall tv (List.mem_cons_self tv rest))
    simp only [ParseTagValues_loop, hstep]
    rw [ih]
    · simp [lastValue_cons, lastValue_nil]
    · exact hst
    · simp
    · exact fun x hx => hall x (List.mem_cons_of_mem tv hx)

/-- C9: repeated document tags are last-write-wins.  For every non-empty pair
sequence whose tags are all among `SPDXVersion`, `DataLicense`, `DocumentName`,
`DocumentNamespace`, `DocumentComment`, `ParseTagValues` returns no error and the
document in which each of these five fields is the value of the last pair
carrying its tag (the empty string when no pair carries it), the list of
external references is empty and every other field has its default. -/
theorem ParseTagValues_last_write_wins (env : Externals) (tvs : List TagValuePair)
    (hne : tvs ≠ []) (hall : ∀ tv ∈ tvs, tv.Tag ∈ setOnceTags) :
    ParseTagValues env tvs =
      (some { SPDXVersion := lastValue "SPDXVersion" tvs "",
              DataLicense := lastValue "DataLicense" tvs "",
              SPDXIdentifier := "",
              DocumentName := lastValue "DocumentName" tvs "",
              DocumentNamespace := lastValue "DocumentNamespace" tvs "",
              ExternalDocumentReferences := [],
              DocumentComment := lastValue "DocumentComment" tvs "",
              CreationInfo := none, Packages := [], Files := [], Snippets := [],
              OtherLicenses := [], Reviews := [] }, none) := by
  rcases tvs with _ | ⟨tv, rest⟩
  · exact absurd rfl hne
  · have hstep := parsePair2_3_set_once env tvParser2_3.zero tv rfl
      (hall tv (List.mem_cons_self tv rest))
    unfold ParseTagValues
    simp only [ParseTagValues_loop, hstep]
    rw [ParseTagValues_loop_set_once env rest _ rfl (by simp)
      (fun x hx => hall x (List.mem_cons_of_mem tv hx))]
    simp [ParseTagValues_finish, tvParser2_3.zero, Document.fresh, lastValue_cons, lastValue_nil]

/-- Witness of C9: `SPDXVersion` occurs twice and the second value is kept. -/
theorem ParseTagValues_last_write_wins_witness :
    ([⟨"SPDXVersion", "SPDX-2.2"⟩, ⟨"DocumentName", "doc"⟩, ⟨"SPDXVersion", "SPDX-2.3"⟩] :
      List TagValuePair) ≠ [] ∧
    (∀ tv ∈ ([⟨"SPDXVersion", "SPDX-2.2"⟩, ⟨"DocumentName", "doc"⟩,
        ⟨"SPDXVersion", "SPDX-2.3"⟩] : List TagValuePair), tv.Tag ∈ setOnceTags) ∧
    ParseTagValues specExternals
        [⟨"SPDXVersion", "SPDX-2.2"⟩, ⟨"DocumentName", "doc"⟩, ⟨"SPDXVersion", "SPDX-2.3"⟩] =
      (some { Document.fresh with SPDXVersion := "SPDX-2.3", DocumentName := "doc" }, none) :=
  ⟨by decide, by decide,
   (ParseTagValues_last_write_wins specExternals
      [⟨"SPDXVersion", "SPDX-2.2"⟩, ⟨"DocumentName", "doc"⟩, ⟨"SPDXVersion", "SPDX-2.3"⟩]
      (by decide) (by decide)).trans (by decide)⟩

/-! ## C11: finalization does not commit -/

theorem parsePair2_3_start (env : Externals) (parser : tvParser2_3) (tag value : String)
    (hst : parser.st = psStart2_3) :
    parsePair2_3 env parser tag value = parsePairFromStart2_3 env parser tag value := by
  unfold parsePair2_3
  rw [if_pos hst]

theorem parsePairFromStart2_3_id_error (env : Externals) (parser : tvParser2_3)
    (value : String) (err : Error) (hst : parser.st = psStart2_3)
    (hext : env.extractElementID value = .error err) :
    (parsePairFromStart2_3 env parser "SPDXID" value).2 = some err := by
  unfold parsePairFromStart2_3
  simp [hst, hext]

theorem parsePairFromStart2_3_reference_error (env : Externals) (parser : tvParser2_3)
    (value : String) (err : Error) (hst : parser.st = psStart2_3)
    (hext : env.extractExternalDocumentReference value = .error err) :
    (parsePairFromStart2_3 env parser "ExternalDocumentRef" value).2 = some err := by
  unfold parsePairFromStart2_3
  simp [hst, hext]

theorem ParseTagValues_of_pair_error (env : Externals) (pre post : List TagValuePair)
    (tv : TagValuePair) (parser : tvParser2_3) (err : Error)
    (hpre : ParseTagValues_loop env tvParser2_3.zero pre = (parser, none))
    (hfail : (parsePair2_3 env parser tv.Tag tv.Value).2 = some err) :
    ParseTagValues env (pre ++ tv :: post) = (none, some err) := by
  rcases hp : parsePair2_3 env parser tv.Tag tv.Value with ⟨failed, e⟩
  rw [hp] at hfail
  simp only at hfail
  subst hfail
  apply ParseTagValues_of_loop_error env _ failed err
  rw [ParseTagValues_loop_append, hpre]
  simp [ParseTagValues_loop, hp]

/-- C12: extraction failures in the Start state are propagated and leave an
existing document untouched.  In the Start state with a document present, an
`SPDXID` pair whose value fails element-identifier extraction, and an
`ExternalDocumentRef` pair whose value fails external-reference extraction,
return the error of the extraction helper and the parser exactly as it was
(same document, same state Start).  Through `ParseTagValues`, when the pairs
before it are consumed without error and leave the state Start, such a pair
yields that error and no document, whatever pairs follow. -/
theorem parsePairFromStart2_3_extraction_failure (env : Externals) (parser : tvParser2_3)
    (d : Document) (value : String) (err : Error) (hst : parser.st = psStart2_3)
    (hdoc : parser.doc = some d) :
    (env.extractElementID value = .error err →
      parsePairFromStart2_3 env parser "SPDXID" value = (parser, some err)) ∧
    (env.extractExternalDocumentReference value = .error err →
      parsePairFromStart2_3 env parser "ExternalDocumentRef" value = (parser, some err)) ∧
    (∀ (pre post : List TagValuePair) (reached : tvParser2_3),
      ParseTagValues_loop env tvParser2_3.zero pre = (reached, none) →
      reached.st = psStart2_3 →
      (env.extractElementID value = .error err →
        ParseTagValues env (pre ++ ⟨"SPDXID", value⟩ :: post) = (none, some err)) ∧
      (env.extractExternalDocumentReference value = .error err →
        ParseTagValues env (pre ++ ⟨"ExternalDocumentRef", value⟩ :: post) = (none, some err))) := by
  refine ⟨?_, ?_, ?_⟩
  · intro hext
    rcases parser with ⟨doc, st, pkg, file, snippet, otherLic, rev⟩
    simp only at hst hdoc
    subst hst hdoc
    simp [parsePairFromStart2_3, hext]
  · intro hext
    rcases parser with ⟨doc, st, pkg, file, snippet, otherLic, rev⟩
    simp only at hst hdoc
    subst hst hdoc
    simp [parsePairFromStart2_3, hext]
  · intro pre post reached hpre hreached
    constructor
    · intro hext
      apply ParseTagValues_of_pair_error env pre post ⟨"SPDXID", value⟩ reached err hpre
      rw [parsePair2_3_start env reached _ _ hreached]
      exact parsePairFromStart2_3_id_error env reached value err hreached hext
    · intro hext
      apply ParseTagValues_of_pair_error env pre post ⟨"ExternalDocumentRef", value⟩ reached err
        hpre
      rw [parsePair2_3_start env reached _ _ hreached]
      exact parsePairFromStart2_3_reference_error env reached value err hreached hext

/-- Witness of C12: on a parser holding a document with one reference, the
reference value with the algorithm `MD9` (Scenario D) is rejected and the
parser is unchanged. -/
theorem parsePairFromStart2_3_extraction_failure_witness :
    ({ tvParser2_3.zero with doc := some { Document.fresh with
        ExternalDocumentReferences := [⟨"DocumentRef-1", "https://example.org/doc",
          ⟨"SHA1", "abc123"⟩⟩] } } : tvParser2_3).st = psStart2_3 ∧
    specExternals.extractExternalDocumentReference "DocumentRef-2 https://example.org/two MD9: 0f"
      = .error ("unknown algorithm in external document reference: "
          ++ "DocumentRef-2 https://example.org/two MD9: 0f") ∧
    parsePairFromStart2_3 specExternals
        { tvParser2_3.zero with doc := some { Document.fresh with
          ExternalDocumentReferences := [⟨"DocumentRef-1", "https://example.org/doc",
            ⟨"SHA1", "abc123"⟩⟩] } }
        "ExternalDocumentRef" "DocumentRef-2 https://example.org/two MD9: 0f" =
      ({ tvParser2_3.zero with doc := some { Document.fresh with
          ExternalDocumentReferences := [⟨"DocumentRef-1", "https://example.org/doc",
            ⟨"SHA1", "abc123"⟩⟩] } },
       some ("unknown algorithm in external document reference: "
          ++ "DocumentRef-2 https://example.org/two MD9: 0f")) :=
  ⟨by decide, by rfl,
   (parsePairFromStart2_3_extraction_failure specExternals
      { tvParser2_3.zero with doc := some { Document.fresh with
        ExternalDocumentReferences := [⟨"DocumentRef-1", "https://example.org/doc",
          ⟨"SHA1", "abc123"⟩⟩] } }
      { Document.fresh with
        ExternalDocumentReferences := [⟨"DocumentRef-1", "https://example.org/doc",
          ⟨"SHA1", "abc123"⟩⟩] }
      "DocumentRef-2 https://example.org/two MD9: 0f"
      ("unknown algorithm in external document reference: "
          ++ "DocumentRef-2 https://example.org/two MD9: 0f")
      (by decide) rfl).2.1 (by rfl)⟩

/-! ## C13: lazy creation of the document -/

/-- C13: the document is created lazily and once.  A fresh parser holds no
document.  In the Start state, for every tag and value: when the parser holds
no document, `parsePairFromStart2_3` creates the document with an empty list
of external references and every field at its default, and when it holds one
it keeps it.  For a tag it recognizes, whether the pair succeeds or fails, the
parser afterwards holds that document with at most the field of the tag
changed.  For any other tag the CreationInfo builder receives the parser
holding that document, and the parser holds a document afterwards for every
builder that never removes one; with the builder modelled from the spec the
parser holds that document afterwards, whether the pair succeeds or fails,
with at most the creation-info record changed. -/
theorem parsePairFromStart2_3_creates_document (env : Externals) (parser : tvParser2_3)
    (tag value : String) (hst : parser.st = psStart2_3) :
    tvParser2_3.zero.doc = none ∧
    (tag ∈ startTags →
      (parser.doc = none →
        ∃ d1, (parsePairFromStart2_3 env parser tag value).1.doc = some d1 ∧
          AgreesOutside tag
            { SPDXVersion := "", DataLicense := "", SPDXIdentifier := "", DocumentName := "",
              DocumentNamespace := "", ExternalDocumentReferences := [], DocumentComment := "",
              CreationInfo := none, Packages := [], Files := [], Snippets := [],
              OtherLicenses := [], Reviews := [] } d1) ∧
      (∀ d, parser.doc = some d →
        ∃ d1, (parsePairFromStart2_3 env parser tag value).1.doc = some d1 ∧
          AgreesOutside tag d d1)) ∧
    (tag ∉ startTags →
      (parser.doc = none →
        parsePairFromStart2_3 env parser tag value =
          env.parsePairFromCreationInfo2_3
            { parser with
              doc := some
                { SPDXVersion := "", DataLicense := "", SPDXIdentifier := "", DocumentName := "",
                  DocumentNamespace := "", ExternalDocumentReferences := [],
                  DocumentComment := "", CreationInfo := none, Packages := [], Files := [],
                  Snippets := [], OtherLicenses := [], Reviews := [] },
              st := psCreationInfo2_3 } tag value) ∧
      (∀ d, parser.doc = some d →
        parsePairFromStart2_3 env parser tag value =
          env.parsePairFromCreationInfo2_3
            { parser with doc := some d, st := psCreationInfo2_3 } tag value) ∧
      (NeverDropsDocument env.parsePairFromCreationInfo2_3 →
        (parsePairFromStart2_3 env parser tag value).1.doc ≠ none) ∧
      ∃ d1, (parsePairFromStart2_3 specExternals parser tag value).1.doc = some d1 ∧
        { d1 with CreationInfo := (parser.doc.getD Document.fresh).CreationInfo } =
          parser.doc.getD Document.fresh) ∧
    (parsePairFromStart2_3 specExternals parser tag value).1.doc ≠ none := by
  have hagree := parsePairFromStart2_3_agrees env parser tag value hst
  have hmodel : tag ∉ startTags →
      ∃ d1, (parsePairFromStart2_3 specExternals parser tag value).1.doc = some d1 ∧
        { d1 with CreationInfo := (parser.doc.getD Document.fresh).CreationInfo } =
          parser.doc.getD Document.fresh := by
    intro htag
    rw [parsePairFromStart2_3_default specExternals parser tag value hst htag]
    exact specBuilder_creationInfo _ tag value _ rfl rfl
  refine ⟨rfl, ?_, ?_, ?_⟩
  · intro htag
    constructor
    · intro hnone
      have h := hagree htag
      rw [hnone] at h
      exact h
    · intro d hd
      have h := hagree htag
      rw [hd] at h
      exact h
  · intro htag
    have heq := parsePairFromStart2_3_default env parser tag value hst htag
    refine ⟨?_, ?_, ?_, hmodel htag⟩
    · intro hnone
      rw [heq, hnone]
      rfl
    · intro d hd
      rw [heq, hd]
      rfl
    · intro hkeep
      rw [heq]
      exact hkeep _ tag value (by simp)
  · by_cases htag : tag ∈ startTags
    · obtain ⟨d1, h1, _⟩ := parsePairFromStart2_3_agrees specExternals parser tag value hst htag
      rw [h1]
      simp
    · obtain ⟨d1, h1, _⟩ := hmodel htag
      rw [h1]
      simp

/-- Witness of C13: on the fresh parser the unknown tag `spdxversion` fails in
the CreationInfo builder and the tag `PackageName` succeeds there; in both
cases the parser holds the newly created document afterwards. -/
theorem parsePairFromStart2_3_creates_document_witness :
    tvParser2_3.zero.st = psStart2_3 ∧
    (parsePairFromStart2_3 specExternals tvParser2_3.zero "spdxversion" "SPDX-2.3").2 ≠ none ∧
    (parsePairFromStart2_3 specExternals tvParser2_3.zero "spdxversion" "SPDX-2.3").1.doc
      = some Document.fresh ∧
    (parsePairFromStart2_3 specExternals tvParser2_3.zero "spdxversion" "SPDX-2.3").1.doc
      ≠ none ∧
    (parsePairFromStart2_3 specExternals tvParser2_3.zero "PackageName" "glibc").1.doc
      ≠ none ∧
    NeverDropsDocument specExternals.parsePairFromCreationInfo2_3 ∧
    (parsePairFromStart2_3 specExternals tvParser2_3.zero "DocumentName" "doc").1.doc =
      some { Document.fresh with DocumentName := "doc" } :=
  ⟨by decide, by decide, by decide,
   (parsePairFromStart2_3_creates_document specExternals tvParser2_3.zero "spdxversion"
      "SPDX-2.3" (by decide)).2.2.2,
   ((parsePairFromStart2_3_creates_document specExternals tvParser2_3.zero "PackageName"
      "glibc" (by decide)).2.2.1 (by decide)).2.2.1
      (specBuilder_neverDropsDocument psCreationInfo2_3),
   specBuilder_neverDropsDocument psCreationInfo2_3,
   by decide⟩

/-! ## C14: dispatch on the state -/

/-- C14: `parsePair2_3` dispatches on the current state alone.  In each of the
seven named states it returns exactly the result of the builder of that state
on the same tag and value; the error "parser state ... not recognized" is the
result, with the parser unchanged, exactly in the branch for a state outside
the seven, so it is not produced by `parsePair2_3` in a named state; and the
fresh parser is in the Start state, so the first pair of every parse is
handled by the Start builder. -/
theorem parsePair2_3_dispatch (env : Externals) (parser : tvParser2_3) (tag value : String) :
    (parser.st = psStart2_3 →
      parsePair2_3 env parser tag value = parsePairFromStart2_3 env parser tag value) ∧
    (parser.st = psCreationInfo2_3 →
      parsePair2_3 env parser tag value = env.parsePairFromCreationInfo2_3 parser tag value) ∧
    (parser.st = psPackage2_3 →
      parsePair2_3 env parser tag value = env.parsePairFromPackage2_3 parser tag value) ∧
    (parser.st = psFile2_3 →
      parsePair2_3 env parser tag value = env.parsePairFromFile2_3 parser tag value) ∧
    (parser.st = psSnippet2_3 →
      parsePair2_3 env parser tag value = env.parsePairFromSnippet2_3 parser tag value) ∧
    (parser.st = psOtherLicense2_3 →
      parsePair2_3 env parser tag value = env.parsePairFromOtherLicense2_3 parser tag value) ∧
    (parser.st = psReview2_3 →
      parsePair2_3 env parser tag value = env.parsePairFromReview2_3 parser tag value) ∧
    (parser.st ∉ namedStates →
      parsePair2_3 env parser tag value =
        (parser, some ("parser state " ++ toString parser.st
          ++ " not recognized when parsing (" ++ tag ++ ", " ++ value ++ ")"))) ∧
    parsePair2_3 env tvParser2_3.zero tag value =
      parsePairFromStart2_3 env tvParser2_3.zero tag value ∧
    (∀ rest : List TagValuePair,
      ParseTagValues_loop env tvParser2_3.zero (⟨tag, value⟩ :: rest) =
        match parsePairFromStart2_3 env tvParser2_3.zero tag value with
        | (parser1, some err) => (parser1, some err)
        | (parser1, none) => ParseTagValues_loop env parser1 rest) := by
  refine ⟨?_, ?_, ?_, ?_, ?_, ?_, ?_, ?_, ?_, ?_⟩
  · intro h; simp [parsePair2_3, h]
  · intro h; simp [parsePair2_3, h, psStart2_3, psCreationInfo2_3]
  · intro h; simp [parsePair2_3, h, psStart2_3, psCreationInfo2_3, psPackage2_3]
  · intro h; simp [parsePair2_3, h, psStart2_3, psCreationInfo2_3, psPackage2_3, psFile2_3]
  · intro h
    simp [parsePair2_3, h, psStart2_3, psCreationInfo2_3, psPackage2_3, psFile2_3, psSnippet2_3]
  · intro h
    simp [parsePair2_3, h, psStart2_3, psCreationInfo2_3, psPackage2_3, psFile2_3, psSnippet2_3,
      psOtherLicense2_3]
  · intro h
    simp [parsePair2_3, h, psStart2_3, psCreationInfo2_3, psPackage2_3, psFile2_3, psSnippet2_3,
      psOtherLicense2_3, psReview2_3]
  · intro h
    simp only [namedStates, List.mem_cons, List.mem_singleton, List.not_mem_nil, or_false,
      not_or] at h
    obtain ⟨h0, h1, h2, h3, h4, h5, h6⟩ := h
    simp [parsePair2_3, h0, h1, h2, h3, h4, h5, h6]
  · exact if_pos rfl
  · intro rest
    simp only [ParseTagValues_loop]
    rw [show parsePair2_3 env tvParser2_3.zero tag value =
      parsePairFromStart2_3 env tvParser2_3.zero tag value from if_pos rfl]

/-- Witness of C14: a parser whose state is 7 is outside the seven named
states and gets the "not recognized" error; a parser in the Package state
gets the result of the Package builder. -/
theorem parsePair2_3_dispatch_witness :
    ({ tvParser2_3.zero with st := 7 } : tvParser2_3).st ∉ namedStates ∧
    parsePair2_3 specExternals { tvParser2_3.zero with st := 7 } "SPDXID" "SPDXRef-a" =
      ({ tvParser2_3.zero with st := 7 },
        some "parser state 7 not recognized when parsing (SPDXID, SPDXRef-a)") ∧
    parsePair2_3 specExternals { tvParser2_3.zero with st := psPackage2_3 } "SPDXID" "SPDXRef-a" =
      ({ tvParser2_3.zero with st := psPackage2_3 },
        some "no open package when parsing SPDXID SPDXRef-a") :=
  ⟨by decide,
   ((parsePair2_3_dispatch specExternals { tvParser2_3.zero with st := 7 } "SPDXID"
      "SPDXRef-a").2.2.2.2.2.2.2.1 (by decide)).trans (by decide),
   ((parsePair2_3_dispatch specExternals { tvParser2_3.zero with st := psPackage2_3 } "SPDXID"
      "SPDXRef-a").2.2.1 (by decide)).trans (by decide)⟩

/-! ## C15: the file is checked before the package -/

theorem file_error_ne_package_error (fileName packageName : String) :
    "file with FileName " ++ fileName ++ " does not have SPDX identifier" ≠
      "package with PackageName " ++ packageName ++ " does not have SPDX identifier" := by
  intro h
  have h1 := congrArg (fun s => s.data.head?) h
  simp [String.data_append] at h1

theorem ParseTagValues_finish_file_unset (env : Externals) (parser : tvParser2_3) (file : File)
    (hfile : parser.file = some file)
    (hunset : file.FileSPDXIdentifier = env.nullSpdxElementId2_3) :
    ParseTagValues_finish env parser =
      (none, some ("file with FileName " ++ file.FileName ++ " does not have SPDX identifier")) := by
  unfold ParseTagValues_finish
  simp [hfile, hunset]

/-- C15: finalization reports one failure and checks the file before the
package.  When all pairs are consumed without error: if both the open file and
the open package have the unset identifier, `ParseTagValues` returns the file
error "file with FileName <FileName> does not have SPDX identifier", with no
document, and not the package error; and whenever the result is a package
error "package with PackageName <name> does not have SPDX identifier", no
open file lacks an identifier. -/
theorem ParseTagValues_file_before_package (env : Externals) (tvs : List TagValuePair)
    (parser : tvParser2_3)
    (hloop : ParseTagValues_loop env tvParser2_3.zero tvs = (parser, none)) :
    (∀ file pkg, parser.file = some file →
      file.FileSPDXIdentifier = env.nullSpdxElementId2_3 →
      parser.pkg = some pkg → pkg.PackageSPDXIdentifier = env.nullSpdxElementId2_3 →
      ParseTagValues env tvs =
        (none, some ("file with FileName " ++ file.FileName ++ " does not have SPDX identifier")) ∧
      (ParseTagValues env tvs).2 ≠
        some ("package with PackageName " ++ pkg.PackageName
          ++ " does not have SPDX identifier")) ∧
    (∀ name : String,
      (ParseTagValues env tvs).2 =
        some ("package with PackageName " ++ name ++ " does not have SPDX identifier") →
      ¬ ∃ file, parser.file = some file ∧
          file.FileSPDXIdentifier = env.nullSpdxElementId2_3) := by
  rw [ParseTagValues_of_loop_ok env tvs parser hloop]
  constructor
  · intro file pkg hfile hunset _ _
    rw [ParseTagValues_finish_file_unset env parser file hfile hunset]
    refine ⟨rfl, ?_⟩
    intro h
    exact file_error_ne_package_error _ _ (Option.some.inj h)
  · rintro name h ⟨file, hfile, hunset⟩
    rw [ParseTagValues_finish_file_unset env parser file hfile hunset] at h
    exact file_error_ne_package_error _ _ (Option.some.inj h)

/-- Witness of C15: with file sections nested in the package, the package
`glibc` and the file `a.c` are both open without identifier at the end, and
the error names the file. -/
theorem ParseTagValues_file_before_package_witness :
    ParseTagValues_loop nestedExternals tvParser2_3.zero packageAndFileWithoutIdentifier =
      ({ doc := some { Document.fresh with SPDXVersion := "SPDX-2.3" }, st := psFile2_3,
         pkg := some { PackageName := "glibc", PackageSPDXIdentifier := specNull },
         file := some { FileName := "a.c", FileSPDXIdentifier := specNull },
         snippet := none, otherLic := none, rev := none }, none) ∧
    ParseTagValues nestedExternals packageAndFileWithoutIdentifier =
      (none, some "file with FileName a.c does not have SPDX identifier") :=
  ⟨by decide,
   ((ParseTagValues_file_before_package nestedExternals packageAndFileWithoutIdentifier
      { doc := some { Document.fresh with SPDXVersion := "SPDX-2.3" }, st := psFile2_3,
        pkg := some { PackageName := "glibc", PackageSPDXIdentifier := specNull },
        file := some { FileName := "a.c", FileSPDXIdentifier := specNull },
        snippet := none, otherLic := none, rev := none } (by decide)).1
      { FileName := "a.c", FileSPDXIdentifier := specNull }
      { PackageName := "glibc", PackageSPDXIdentifier := specNull } rfl rfl rfl rfl).1⟩

/-! ## C16: the state guard of the Start builder -/

end parser2v3
